/-
Verification of the nfsv3 server bridge (package nfsv3).

Shallow embedding of the core: the handle registry (ToHandle / FromHandle /
HandleLimit), the listing verifier cache (VerifierFor / DataForVerifier),
FSStat, and the billy capability adapter's unsupported operations.

Machine integers are modelled as Nat (resp. Int for signed values), with
explicit reduction modulo 2^w where Go performs a width conversion.
Byte strings (Go strings, byte slices) are `List Nat` with entries below 256.

The bounded caches are `lru.TwoQueueCache` from hashicorp/golang-lru; the
cache and its inner `simplelru.LRU` are modelled below following that
library's Add / Get / ensureSpace code.  In the model an `LRU` holds its
entries least recently used first, so refreshing an entry's recency appends
it at the end and evicting the oldest entry drops the head.

SHA-256 (`crypto/sha256`, used by `server.ToHandle`) is implemented in full
from FIPS 180-4 over byte lists; arithmetic is written with the `Nat.`
primitives directly so that the kernel can evaluate hashes.
-/
import Mathlib

set_option autoImplicit false
set_option maxRecDepth 10000

/-! ## SHA-256 over byte lists -/

/-- Reduce to a 32-bit word, `x % 2^32`. -/
def w32 (x : Nat) : Nat := Nat.mod x 4294967296

/-- Right rotation of a 32-bit word by `n` places. -/
def rotr32 (n x : Nat) : Nat :=
  Nat.mod (Nat.lor (Nat.shiftRight x n) (Nat.shiftLeft x (Nat.sub 32 n))) 4294967296

/-- SHA-256 small sigma 0. -/
def sigma0 (x : Nat) : Nat := Nat.xor (Nat.xor (rotr32 7 x) (rotr32 18 x)) (Nat.shiftRight x 3)

/-- SHA-256 small sigma 1. -/
def sigma1 (x : Nat) : Nat := Nat.xor (Nat.xor (rotr32 17 x) (rotr32 19 x)) (Nat.shiftRight x 10)

/-- SHA-256 big sigma 0. -/
def bigSigma0 (x : Nat) : Nat := Nat.xor (Nat.xor (rotr32 2 x) (rotr32 13 x)) (rotr32 22 x)

/-- SHA-256 big sigma 1. -/
def bigSigma1 (x : Nat) : Nat := Nat.xor (Nat.xor (rotr32 6 x) (rotr32 11 x)) (rotr32 25 x)

/-- SHA-256 choice function; complement on 32 bits is xor with `2^32 - 1`. -/
def chFn (x y z : Nat) : Nat := Nat.xor (Nat.land x y) (Nat.land (Nat.xor x 4294967295) z)

/-- SHA-256 majority function. -/
def majFn (x y z : Nat) : Nat := Nat.xor (Nat.xor (Nat.land x y) (Nat.land x z)) (Nat.land y z)

/-- The 64 SHA-256 round constants. -/
def K256 : List Nat :=
  [1116352408, 1899447441, 3049323471, 3921009573, 961987163, 1508970993,
   2453635748, 2870763221, 3624381080, 310598401, 607225278, 1426881987,
   1925078388, 2162078206, 2614888103, 3248222580, 3835390401, 4022224774,
   264347078, 604807628, 770255983, 1249150122, 1555081692, 1996064986,
   2554220882, 2821834349, 2952996808, 3210313671, 3336571891, 3584528711,
   113926993, 338241895, 666307205, 773529912, 1294757372, 1396182291,
   1695183700, 1986661051, 2177026350, 2456956037, 2730485921, 2820302411,
   3259730800, 3345764771, 3516065817, 3600352804, 4094571909, 275423344,
   430227734, 506948616, 659060556, 883997877, 958139571, 1322822218,
   1537002063, 1747873779, 1955562222, 2024104815, 2227730452, 2361852424,
   2428436474, 2756734187, 3204031479, 3329325298]

/-- The SHA-256 initial hash value, eight 32-bit words. -/
def H256 : List Nat :=
  [1779033703, 3144134277, 1013904242, 2773480762, 1359893119, 2600822924, 528734635, 1541459225]

/-- `n`-byte big-endian encoding of `x % 2^(8n)`. -/
def toBytesBE : Nat → Nat → List Nat
  | 0, _ => []
  | n + 1, x => toBytesBE n (Nat.div x 256) ++ [Nat.mod x 256]

/-- Group bytes four at a time into big-endian 32-bit words. -/
def bytesToWords : List Nat → List Nat
  | a :: b :: c :: d :: rest =>
    Nat.add (Nat.mul (Nat.add (Nat.mul (Nat.add (Nat.mul a 256) b) 256) c) 256) d ::
      bytesToWords rest
  | _ => []

/-- Extend the message schedule by `n` more words; `w0 .. w15` are the last
sixteen words, oldest first. -/
def extendWAux : Nat → Nat → Nat → Nat → Nat → Nat → Nat → Nat → Nat → Nat → Nat → Nat → Nat →
    Nat → Nat → Nat → Nat → List Nat
  | 0, _, _, _, _, _, _, _, _, _, _, _, _, _, _, _, _ => []
  | n + 1, w0, w1, w2, w3, w4, w5, w6, w7, w8, w9, w10, w11, w12, w13, w14, w15 =>
    let newW := w32 (Nat.add (Nat.add (Nat.add (sigma1 w14) w9) (sigma0 w1)) w0)
    newW :: extendWAux n w1 w2 w3 w4 w5 w6 w7 w8 w9 w10 w11 w12 w13 w14 w15 newW
termination_by structural n => n

/-- The 64-word message schedule of one block. -/
def extendW (w16 : List Nat) : List Nat :=
  match w16 with
  | [w0, w1, w2, w3, w4, w5, w6, w7, w8, w9, w10, w11, w12, w13, w14, w15] =>
    w16 ++ extendWAux 48 w0 w1 w2 w3 w4 w5 w6 w7 w8 w9 w10 w11 w12 w13 w14 w15
  | _ => w16

/-- The 64 SHA-256 rounds; consumes the round constants and the schedule in
lockstep, the working variables are `a` through `h`. -/
def sha256Rounds : List Nat → List Nat → Nat → Nat → Nat → Nat → Nat → Nat → Nat → Nat → List Nat
  | k :: ks, w :: ws, a, b, c, d, e, f, g, h =>
    let t1 := w32 (Nat.add (Nat.add (Nat.add (Nat.add h (bigSigma1 e)) (chFn e f g)) k) w)
    let t2 := w32 (Nat.add (bigSigma0 a) (majFn a b c))
    sha256Rounds ks ws (w32 (Nat.add t1 t2)) a b c (w32 (Nat.add d t1)) e f g
  | _, _, a, b, c, d, e, f, g, h => [a, b, c, d, e, f, g, h]

/-- Compress one 64-byte block into the running state of eight words. -/
def sha256Block (st : List Nat) (block : List Nat) : List Nat :=
  match st with
  | [a, b, c, d, e, f, g, h] =>
    match sha256Rounds K256 (extendW (bytesToWords block)) a b c d e f g h with
    | [a2, b2, c2, d2, e2, f2, g2, h2] =>
      [w32 (Nat.add a a2), w32 (Nat.add b b2), w32 (Nat.add c c2), w32 (Nat.add d d2),
       w32 (Nat.add e e2), w32 (Nat.add f f2), w32 (Nat.add g g2), w32 (Nat.add h h2)]
    | st2 => st2
  | st => st

/-- Split a byte list into 64-byte chunks; the fuel bounds the number of
chunks and keeps the recursion structural. -/
def chunks64Aux : Nat → List Nat → List (List Nat)
  | 0, _ => []
  | _, [] => []
  | fuel + 1, l => l.take 64 :: chunks64Aux fuel (l.drop 64)

/-- Split a byte list into 64-byte chunks. -/
def chunks64 (l : List Nat) : List (List Nat) := chunks64Aux l.length l

/-- SHA-256 padding: `0x80`, zeros until the length is 56 mod 64, then the
8-byte big-endian bit length. -/
def sha256Pad (msg : List Nat) : List Nat :=
  let padZeros := (119 - (msg.length % 64)) % 64
  msg ++ [128] ++ List.replicate padZeros 0 ++ toBytesBE 8 (msg.length * 8)

/-- SHA-256 of a byte list, as a list of 32 bytes. -/
def sha256Bytes (msg : List Nat) : List Nat :=
  let final := (chunks64 (sha256Pad msg)).foldl sha256Block H256
  (final.map (toBytesBE 4)).foldr (fun a b => a ++ b) []

/-! ## The bounded caches (hashicorp/golang-lru)

`simplelru.LRU`: a capacity plus the entries, least recently used first.
Keys are unique in every state the library can reach; well-formedness is
stated separately as `LRU.WF`. -/

/-- `simplelru.LRU`: capacity `size` and entries, least recently used
first. -/
structure LRU (K V : Type) where
  size : Nat
  items : List (K × V)

/-- `LRU.Contains`: key membership, recency unchanged. -/
def LRU.contains {K V : Type} [DecidableEq K] (c : LRU K V) (k : K) : Bool :=
  c.items.any (fun p => decide (p.1 = k))

/-- `LRU.Peek`: value lookup without refreshing recency. -/
def LRU.peek {K V : Type} [DecidableEq K] (c : LRU K V) (k : K) : Option V :=
  (c.items.find? (fun p => decide (p.1 = k))).map Prod.snd

/-- `LRU.Remove`: drop the entry with the given key. -/
def LRU.remove {K V : Type} [DecidableEq K] (c : LRU K V) (k : K) : LRU K V :=
  ⟨c.size, c.items.eraseP (fun p => decide (p.1 = k))⟩

/-- `LRU.RemoveOldest`: drop and return the least recently used entry. -/
def LRU.removeOldest {K V : Type} (c : LRU K V) : LRU K V × Option (K × V) :=
  (⟨c.size, c.items.tail⟩, c.items.head?)

/-- `LRU.Len`. -/
def LRU.len {K V : Type} (c : LRU K V) : Nat := c.items.length

/-- `LRU.Add`: update-and-refresh when the key is present; otherwise append
as most recent and evict the oldest entry if the capacity is exceeded. -/
def LRU.add {K V : Type} [DecidableEq K] (c : LRU K V) (k : K) (v : V) : LRU K V :=
  if c.contains k then
    ⟨c.size, c.items.eraseP (fun p => decide (p.1 = k)) ++ [(k, v)]⟩
  else
    let items := c.items ++ [(k, v)]
    ⟨c.size, if c.size < items.length then items.tail else items⟩

/-- `LRU.Get`: value lookup, refreshing the entry's recency on a hit. -/
def LRU.get {K V : Type} [DecidableEq K] (c : LRU K V) (k : K) : Option V × LRU K V :=
  match c.items.find? (fun p => decide (p.1 = k)) with
  | some p => (some p.2, ⟨c.size, c.items.eraseP (fun q => decide (q.1 = k)) ++ [(k, p.2)]⟩)
  | none => (none, c)

/-- States of an `LRU` reachable by the library: positive capacity and
pairwise distinct keys. -/
def LRU.WF {K V : Type} (c : LRU K V) : Prop :=
  0 < c.size ∧ (c.items.map Prod.fst).Nodup

instance {K V : Type} [DecidableEq K] (c : LRU K V) : Decidable c.WF := by
  unfold LRU.WF; infer_instance

/-- `lru.TwoQueueCache`: the recent queue, the frequent queue and the ghost
queue of recently evicted keys. -/
structure TwoQueueCache (K V : Type) where
  size : Nat
  recentSize : Nat
  recent : LRU K V
  frequent : LRU K V
  recentEvict : LRU K Unit

/-- `TwoQueueCache.ensureSpace` from golang-lru. -/
def TwoQueueCache.ensureSpace {K V : Type} [DecidableEq K] (c : TwoQueueCache K V)
    (recentEvict : Bool) :
    TwoQueueCache K V :=
  if c.recent.len + c.frequent.len < c.size then c
  else if 0 < c.recent.len ∧
      (c.recentSize < c.recent.len ∨ (c.recent.len = c.recentSize ∧ ¬recentEvict)) then
    match c.recent.removeOldest with
    | (r2, some p) => { c with recent := r2, recentEvict := c.recentEvict.add p.1 () }
    | (r2, none) => { c with recent := r2 }
  else
    { c with frequent := (c.frequent.removeOldest).1 }

/-- `TwoQueueCache.Add` from golang-lru. -/
def TwoQueueCache.add {K V : Type} [DecidableEq K] (c : TwoQueueCache K V) (k : K) (v : V) :
    TwoQueueCache K V :=
  if c.frequent.contains k then
    { c with frequent := c.frequent.add k v }
  else if c.recent.contains k then
    { c with recent := c.recent.remove k, frequent := c.frequent.add k v }
  else if c.recentEvict.contains k then
    let c2 := c.ensureSpace true
    { c2 with recentEvict := c2.recentEvict.remove k, frequent := c2.frequent.add k v }
  else
    let c2 := c.ensureSpace false
    { c2 with recent := c2.recent.add k v }

/-- `TwoQueueCache.Get` from golang-lru: a hit in the recent queue is
promoted into the frequent queue. -/
def TwoQueueCache.get {K V : Type} [DecidableEq K] (c : TwoQueueCache K V) (k : K) :
    Option V × TwoQueueCache K V :=
  match c.frequent.get k with
  | (some v, f2) => (some v, { c with frequent := f2 })
  | (none, _) =>
    match c.recent.peek k with
    | some v => (some v, { c with recent := c.recent.remove k, frequent := c.frequent.add k v })
    | none => (none, c)

/-- `TwoQueueCache.Contains` from golang-lru: the key is in the recent or
the frequent queue (the ghost queue does not count). -/
def TwoQueueCache.contains {K V : Type} [DecidableEq K] (c : TwoQueueCache K V) (k : K) : Bool :=
  c.frequent.contains k || c.recent.contains k

/-- `lru.New2Q size`: `recentSize = int(size * 0.25)` and the ghost queue
capacity `int(size * 0.5)`; for the reference size 1024 these float
computations are exactly `size / 4` and `size / 2`. -/
def New2Q (K V : Type) (size : Nat) : TwoQueueCache K V :=
  ⟨size, size / 4, ⟨size, []⟩, ⟨size, []⟩, ⟨size / 2, []⟩⟩

/-- Well-formedness for the two value-carrying queues of a 2Q cache. -/
def TwoQueueCache.WF {K V : Type} (c : TwoQueueCache K V) : Prop :=
  c.recent.WF ∧ c.frequent.WF

instance {K V : Type} [DecidableEq K] (c : TwoQueueCache K V) : Decidable c.WF := by
  unfold TwoQueueCache.WF; infer_instance

/-! ## The nfsv3 server

The VFS consumed by the server is modelled as an environment: a `Stat`
function (`none` models a stat error) and the `Statfs` space-usage triple.
File metadata carries the fields the server consults; `modTimeMicro` is
`ModTime().UnixMicro()`, an `int64`. -/

/-- Directory-entry metadata (`io/fs.FileInfo`) as consulted by the server:
the name and the modification time in microseconds since the Unix epoch
(`ModTime().UnixMicro()`, an `int64`). -/
structure FileInfo where
  name : List Nat
  modTimeMicro : Int
deriving DecidableEq

/-- The underlying VFS, at the interface the server consumes. -/
structure VfsEnv where
  stat : List Nat → Option FileInfo
  statfsTotal : Int
  statfsUsed : Int
  statfsFree : Int

/-- Go `uint64(x)` for an `int64` value `x`: reduction modulo `2^64`. -/
def u64ofInt (x : Int) : Nat := (x % (18446744073709551616 : Int)).toNat

/-- `MAX_FILE_HANDLES`. -/
def MAX_FILE_HANDLES : Nat := 1024

/-- The key type of `contentsForVerifier`. -/
structure VerifierPathPair where
  verifier : Nat
  path : List Nat
deriving DecidableEq

/-- The server: the two bounded caches.  (The `billyFs` field only carries
the VFS, which the model passes as an explicit environment.) -/
structure Server where
  pathForHandle : TwoQueueCache (List Nat) (List (List Nat))
  contentsForVerifier : TwoQueueCache VerifierPathPair (List FileInfo)

/-- `newServer`: both caches are fresh 2Q caches of capacity
`MAX_FILE_HANDLES`. -/
def newServer : Server :=
  ⟨New2Q (List Nat) (List (List Nat)) MAX_FILE_HANDLES,
   New2Q VerifierPathPair (List FileInfo) MAX_FILE_HANDLES⟩

/-- `var key [32]byte; copy(key[:], fh)`: the first 32 bytes of `fh`,
zero-padded on the right when `fh` is shorter than 32 bytes. -/
def keyOfBytes (fh : List Nat) : List Nat :=
  List.take 32 (fh ++ List.replicate 32 0)

/-- The `vHash.Write` loop of `server.ToHandle`: feeding each component to
the hash in order amounts to hashing their concatenation. -/
def concatComponents (path : List (List Nat)) : List Nat :=
  path.foldl (fun acc item => acc ++ item) []

/-- `server.ToHandle`: hash the path components in sequence (SHA-256 of
their concatenation), record handle-key ↦ path in the bounded cache, and
return the digest. -/
def Server.ToHandle (s : Server) (path : List (List Nat)) : List Nat × Server :=
  let sum := sha256Bytes (concatComponents path)
  let key := keyOfBytes sum
  (sum, { s with pathForHandle := s.pathForHandle.add key path })

/-- `server.FromHandle`: look the first 32 bytes of the handle up in the
bounded cache.  (The model's cache is typed, so the source's defensive
"invalid value in map" branch for a badly-typed cached value cannot arise.) -/
def Server.FromHandle (s : Server) (fh : List Nat) :
    Except String (List (List Nat)) × Server :=
  match s.pathForHandle.get (keyOfBytes fh) with
  | (some path, c2) => (Except.ok path, { s with pathForHandle := c2 })
  | (none, c2) => (Except.error "handle unknown or expired", { s with pathForHandle := c2 })

/-- `server.HandleLimit`. -/
def Server.HandleLimit (_s : Server) : Nat := MAX_FILE_HANDLES

/-- `server.VerifierFor`: stat the path; on failure return the sentinel 0
and change nothing; on success derive the verifier from the modification
time (`uint64(node.ModTime().UnixMicro())`) and cache the listing under
(verifier, path). -/
def Server.VerifierFor (env : VfsEnv) (s : Server) (path : List Nat)
    (contents : List FileInfo) : Nat × Server :=
  match env.stat path with
  | none => (0, s)
  | some node =>
    (u64ofInt node.modTimeMicro,
     Server.mk s.pathForHandle
       (s.contentsForVerifier.add (VerifierPathPair.mk (u64ofInt node.modTimeMicro) path)
         contents))

/-- `server.DataForVerifier`: pure cache lookup under (verifier, path);
`none` models the nil slice returned on a miss. -/
def Server.DataForVerifier (s : Server) (path : List Nat) (verifier : Nat) :
    Option (List FileInfo) × Server :=
  match s.contentsForVerifier.get (VerifierPathPair.mk verifier path) with
  | (some fileInfos, c2) => (some fileInfos, { s with contentsForVerifier := c2 })
  | (none, c2) => (none, { s with contentsForVerifier := c2 })

/-- The `nfs.FSStat` response fields set by `server.FSStat`. -/
structure NfsFSStat where
  TotalSize : Nat
  FreeSize : Nat
  AvailableSize : Nat
  TotalFiles : Nat
  FreeFiles : Nat
  AvailableFiles : Nat
deriving DecidableEq

/-- `server.FSStat`: fill the response from `VFS.Statfs()` (the `used`
value is discarded); file counts are 0 total and `math.MaxUint64`
free/available; the returned error is always nil (`none`). -/
def Server.FSStat (env : VfsEnv) (_s : Server) (_fsStat : NfsFSStat) :
    NfsFSStat × Option String :=
  let total := env.statfsTotal
  let free := env.statfsFree
  ({ TotalSize := u64ofInt total
     FreeSize := u64ofInt free
     AvailableSize := u64ofInt free
     TotalFiles := 0
     FreeFiles := 18446744073709551615
     AvailableFiles := 18446744073709551615 }, none)

/-! ## The billy capability adapter: unsupported operations

`billy.ErrNotSupported` is the fixed rejection value.  Operations the
backing VFS cannot honor return it unconditionally, for all arguments,
without consulting the VFS. -/

/-- The billy error values reachable in the modelled methods. -/
inductive BillyError where
  | ErrNotSupported
deriving DecidableEq

/-- The capability adapter over the VFS (`billyFs`). -/
structure BillyFs where
  vfs : VfsEnv

/-- An open file handle of the adapter (`billyFile`); the claims only touch
its unsupported methods, so the underlying `vfs.Handle` is left opaque. -/
structure BillyFile where
  id : Nat

/-- `billyFile.Lock`. -/
def BillyFile.Lock (_f : BillyFile) : Except BillyError Unit :=
  Except.error BillyError.ErrNotSupported

/-- `billyFile.Unlock`. -/
def BillyFile.Unlock (_f : BillyFile) : Except BillyError Unit :=
  Except.error BillyError.ErrNotSupported

/-- `billyFs.MkdirAll`. -/
def BillyFs.MkdirAll (_fs : BillyFs) (_filename : List Nat) (_perm : Nat) :
    Except BillyError Unit :=
  Except.error BillyError.ErrNotSupported

/-- `billyFs.Chroot`; the source returns `(nil, billy.ErrNotSupported)`. -/
def BillyFs.Chroot (_fs : BillyFs) (_path : List Nat) : Except BillyError BillyFs :=
  Except.error BillyError.ErrNotSupported

/-- `billyFs.Lstat`; the source returns `(nil, billy.ErrNotSupported)`. -/
def BillyFs.Lstat (_fs : BillyFs) (_filename : List Nat) : Except BillyError FileInfo :=
  Except.error BillyError.ErrNotSupported

/-- `billyFs.Symlink`. -/
def BillyFs.Symlink (_fs : BillyFs) (_target _link : List Nat) : Except BillyError Unit :=
  Except.error BillyError.ErrNotSupported

/-- `billyFs.Readlink`; the source returns `("", billy.ErrNotSupported)`. -/
def BillyFs.Readlink (_fs : BillyFs) (_link : List Nat) : Except BillyError (List Nat) :=
  Except.error BillyError.ErrNotSupported

/-- `billyFs.TempFile`; the source returns `(nil, billy.ErrNotSupported)`. -/
def BillyFs.TempFile (_fs : BillyFs) (_dir _pre : List Nat) : Except BillyError BillyFile :=
  Except.error BillyError.ErrNotSupported

/-- Registering a list of paths in order via `ToHandle`, keeping the final
server state. -/
def registerAll (s : Server) (paths : List (List (List Nat))) : Server :=
  paths.foldl (fun s p => (s.ToHandle p).2) s

/-- The handle `ToHandle` returns for a path (it does not depend on the
server state). -/
def handleOf (path : List (List Nat)) : List Nat :=
  (Server.ToHandle newServer path).1

/-- The cache key `ToHandle` files a path under. -/
def pathKey (path : List (List Nat)) : List Nat :=
  keyOfBytes (handleOf path)

/-- Big-endian value of the first eight bytes, used to decide distinctness
of precomputed handle keys cheaply. -/
def enc8 (l : List Nat) : Nat :=
  (l.take 8).foldl (fun a b => a * 256 + b) 0

/-- Linear check that a list of naturals is strictly increasing; used to
decide cheaply that the precomputed scenario keys are pairwise distinct. -/
def strictIncr : List Nat → Bool
  | a :: b :: rest => decide (a < b) && strictIncr (b :: rest)
  | _ => true

/-- The first path of claim C2's scenario. -/
def c2p0 : List (List Nat) := [[100, 111, 99, 115], [114, 101, 112, 111, 114, 116, 46, 116, 120, 116]]

/-- 1024 further distinct paths for the capacity-overflow scenario, in
chunks, ordered so that their handle key prefixes strictly increase. -/
def c2PathsChunk00 : List (List (List Nat)) := [[[112, 49, 55, 57]], [[112, 56, 53, 50]], [[112, 53, 48, 53]], [[112, 55, 50]], [[112, 52, 57, 56]], [[112, 56, 54, 53]], [[112, 52, 53, 48]], [[112, 50, 48, 57]], [[112, 57, 53, 51]], [[112, 55, 50, 50]], [[112, 52, 56, 54]], [[112, 57, 56]], [[112, 53, 54, 50]], [[112, 54, 49, 55]], [[112, 57, 50, 55]], [[112, 52, 57, 55]], [[112, 53, 57]], [[112, 54, 48]], [[112, 54, 50, 54]], [[112, 49, 54, 56]], [[112, 55, 53, 53]], [[112, 57, 49, 55]], [[112, 56, 54, 48]], [[112, 55, 50, 56]], [[112, 55]], [[112, 50, 51, 56]], [[112, 54, 51]], [[112, 54, 50, 56]], [[112, 56, 52, 49]], [[112, 56, 56, 48]], [[112, 50, 54, 56]], [[112, 55, 52, 54]]]
def c2PathsChunk01 : List (List (List Nat)) := [[[112, 56, 49, 53]], [[112, 50, 52, 57]], [[112, 53, 54, 51]], [[112, 55, 50, 53]], [[112, 51, 57, 48]], [[112, 57, 55, 53]], [[112, 49, 48, 55]], [[112, 54, 51, 49]], [[112, 57, 57, 52]], [[112, 51, 51, 53]], [[112, 49, 56, 53]], [[112, 57, 53, 50]], [[112, 55, 53, 57]], [[112, 54, 55, 52]], [[112, 57, 52, 53]], [[112, 52, 50, 49]], [[112, 51, 51, 52]], [[112, 56, 48, 51]], [[112, 49, 48, 49, 57]], [[112, 55, 48, 57]], [[112, 51, 48, 56]], [[112, 52, 48, 54]], [[112, 55, 51, 52]], [[112, 49, 54, 53]], [[112, 51, 50, 49]], [[112, 54, 49, 53]], [[112, 55, 52, 57]], [[112, 51, 51, 57]], [[112, 53, 57, 55]], [[112, 55, 51, 49]], [[112, 57, 48, 50]], [[112, 56, 49, 56]]]
def c2PathsChunk02 : List (List (List Nat)) := [[[112, 50, 49, 49]], [[112, 49, 56, 55]], [[112, 50, 54, 57]], [[112, 51, 55]], [[112, 57, 55, 49]], [[112, 51, 48, 52]], [[112, 56, 52, 53]], [[112, 53, 52]], [[112, 49, 54, 51]], [[112, 57, 52, 48]], [[112, 53, 51]], [[112, 49, 54, 54]], [[112, 54, 51, 57]], [[112, 49, 51, 52]], [[112, 51, 57, 57]], [[112, 57, 51, 51]], [[112, 49, 53, 51]], [[112, 50, 54, 53]], [[112, 49, 55]], [[112, 50, 50, 53]], [[112, 56, 51, 49]], [[112, 52, 51, 48]], [[112, 50, 55, 50]], [[112, 54, 51, 56]], [[112, 57, 48]], [[112, 52, 49, 56]], [[112, 51, 53, 52]], [[112, 57, 48, 55]], [[112, 49, 48, 49, 53]], [[112, 55, 55, 50]], [[112, 56, 52, 50]], [[112, 54, 55, 50]]]
def c2PathsChunk03 : List (List (List Nat)) := [[[112, 57, 49, 50]], [[112, 55, 57, 48]], [[112, 50, 53, 49]], [[112, 57, 50, 48]], [[112, 50, 51, 48]], [[112, 54, 49, 49]], [[112, 48]], [[112, 54, 53, 54]], [[112, 51, 51]], [[112, 52, 55, 56]], [[112, 54, 57, 54]], [[112, 52, 52]], [[112, 53, 49, 49]], [[112, 49, 48, 49, 52]], [[112, 54, 57, 48]], [[112, 57, 52, 57]], [[112, 56, 49, 48]], [[112, 55, 52]], [[112, 53, 55, 56]], [[112, 51, 54, 55]], [[112, 51, 55, 53]], [[112, 57, 52]], [[112, 53, 48, 56]], [[112, 54, 51, 50]], [[112, 51, 50, 51]], [[112, 49, 48, 49, 51]], [[112, 49, 48, 50, 49]], [[112, 53, 50, 57]], [[112, 51, 55, 56]], [[112, 50, 57, 57]], [[112, 50, 57, 55]], [[112, 49, 55, 55]]]
def c2PathsChunk04 : List (List (List Nat)) := [[[112, 55, 54, 52]], [[112, 54, 57, 50]], [[112, 57, 54]], [[112, 51, 52, 52]], [[112, 57, 50, 54]], [[112, 53, 48, 48]], [[112, 52, 57, 51]], [[112, 52, 57, 57]], [[112, 49, 49, 49]], [[112, 50, 52, 53]], [[112, 51, 50, 50]], [[112, 53, 55, 51]], [[112, 57, 54, 50]], [[112, 54, 52, 55]], [[112, 57, 55, 55]], [[112, 51, 48, 48]], [[112, 56, 54, 50]], [[112, 50, 54, 54]], [[112, 49, 53, 49]], [[112, 57, 55, 50]], [[112, 52, 54, 48]], [[112, 55, 49]], [[112, 56, 49, 52]], [[112, 56, 49, 50]], [[112, 49, 50, 56]], [[112, 57, 56, 57]], [[112, 57, 50]], [[112, 53, 51, 53]], [[112, 51, 51, 54]], [[112, 57]], [[112, 57, 51, 56]], [[112, 54, 56, 54]]]
def c2PathsChunk05 : List (List (List Nat)) := [[[112, 51, 57, 51]], [[112, 49, 49]], [[112, 51, 49, 56]], [[112, 51, 51, 49]], [[112, 52, 48, 51]], [[112, 53, 51, 57]], [[112, 57, 52, 49]], [[112, 52, 57, 48]], [[112, 50, 49, 55]], [[112, 49, 48, 50, 48]], [[112, 51, 51, 50]], [[112, 56, 52, 51]], [[112, 54, 56, 51]], [[112, 55, 48, 55]], [[112, 57, 53, 56]], [[112, 50, 56]], [[112, 51, 52, 51]], [[112, 56, 54, 54]], [[112, 53, 55, 49]], [[112, 52, 53, 50]], [[112, 57, 49, 53]], [[112, 49, 53, 52]], [[112, 56, 55, 48]], [[112, 53, 52, 48]], [[112, 50, 50, 50]], [[112, 55, 53, 52]], [[112, 51, 56, 51]], [[112, 55, 56, 57]], [[112, 56, 56, 54]], [[112, 56, 57, 54]], [[112, 54, 57, 56]], [[112, 49, 49, 56]]]
def c2PathsChunk06 : List (List (List Nat)) := [[[112, 52, 52, 49]], [[112, 55, 50, 54]], [[112, 50, 49, 50]], [[112, 56, 57, 57]], [[112, 51, 49, 49]], [[112, 52, 51, 50]], [[112, 51, 56]], [[112, 56, 50, 55]], [[112, 56, 57, 56]], [[112, 49, 48, 48, 56]], [[112, 54, 55, 53]], [[112, 49, 50, 54]], [[112, 51, 56, 56]], [[112, 52, 53, 55]], [[112, 51, 55, 55]], [[112, 50, 49, 51]], [[112, 53, 51, 55]], [[112, 50, 56, 55]], [[112, 51, 52, 53]], [[112, 52, 54, 57]], [[112, 56, 50, 48]], [[112, 50, 56, 52]], [[112, 54, 55, 56]], [[112, 54, 53, 52]], [[112, 51, 48, 55]], [[112, 55, 53, 55]], [[112, 50, 52, 48]], [[112, 51, 56, 48]], [[112, 51, 57]], [[112, 56, 51, 55]], [[112, 56, 55, 57]], [[112, 54, 54, 50]]]
def c2PathsChunk07 : List (List (List Nat)) := [[[112, 54, 49, 50]], [[112, 55, 54, 51]], [[112, 52, 50, 50]], [[112, 50, 54, 49]], [[112, 49, 48, 48, 52]], [[112, 50]], [[112, 57, 50, 57]], [[112, 54, 57, 53]], [[112, 57, 55, 54]], [[112, 57, 56, 55]], [[112, 57, 50, 51]], [[112, 56, 54, 51]], [[112, 54, 49, 54]], [[112, 53, 48, 55]], [[112, 51, 54, 56]], [[112, 52, 55, 57]], [[112, 49, 51, 54]], [[112, 53, 56]], [[112, 55, 52, 52]], [[112, 54, 52, 53]], [[112, 56, 50]], [[112, 50, 51]], [[112, 50, 55, 52]], [[112, 56, 49, 49]], [[112, 52, 49, 52]], [[112, 57, 48, 49]], [[112, 50, 49, 57]], [[112, 56, 48, 48]], [[112, 51, 54, 52]], [[112, 54, 56, 57]], [[112, 55, 55, 48]], [[112, 55, 49, 54]]]
def c2PathsChunk08 : List (List (List Nat)) := [[[112, 51, 49, 52]], [[112, 49, 48, 49]], [[112, 49, 49, 57]], [[112, 54, 50, 55]], [[112, 55, 49, 53]], [[112, 56, 53, 51]], [[112, 51, 55, 50]], [[112, 52, 51, 52]], [[112, 57, 52, 54]], [[112, 52, 57, 52]], [[112, 57, 51, 48]], [[112, 49, 56, 54]], [[112, 54, 48, 49]], [[112, 52, 56, 50]], [[112, 56, 55, 56]], [[112, 49, 57, 50]], [[112, 50, 57, 56]], [[112, 53, 55]], [[112, 55, 54, 49]], [[112, 49, 48, 52]], [[112, 52, 54, 49]], [[112, 54, 54, 52]], [[112, 53, 52, 55]], [[112, 53, 48, 57]], [[112, 51]], [[112, 56, 55, 50]], [[112, 51, 57, 56]], [[112, 53, 56, 57]], [[112, 54, 55]], [[112, 56, 55, 49]], [[112, 57, 54, 55]], [[112, 53, 48, 54]]]
def c2PathsChunk09 : List (List (List Nat)) := [[[112, 56, 53]], [[112, 55, 51, 50]], [[112, 56, 49, 51]], [[112, 54, 52, 48]], [[112, 53, 51, 51]], [[112, 56, 54, 55]], [[112, 49, 51, 55]], [[112, 56, 48, 49]], [[112, 49, 50, 50]], [[112, 56, 52, 56]], [[112, 53, 49, 56]], [[112, 56, 57, 49]], [[112, 50, 54, 51]], [[112, 52, 53, 54]], [[112, 50, 55, 54]], [[112, 50, 53, 55]], [[112, 55, 56, 51]], [[112, 56, 51, 53]], [[112, 52, 55, 49]], [[112, 56, 51, 50]], [[112, 57, 57, 56]], [[112, 49, 52, 52]], [[112, 49, 57, 48]], [[112, 50, 53, 50]], [[112, 51, 49, 55]], [[112, 51, 48, 50]], [[112, 56, 56, 50]], [[112, 50, 57, 50]], [[112, 54, 52, 50]], [[112, 55, 54, 53]], [[112, 55, 49, 56]], [[112, 55, 48, 50]]]
def c2PathsChunk10 : List (List (List Nat)) := [[[112, 49, 57, 57]], [[112, 52, 53, 56]], [[112, 50, 57, 51]], [[112, 57, 54, 54]], [[112, 51, 50, 53]], [[112, 49, 52, 56]], [[112, 56, 57, 51]], [[112, 50, 51, 57]], [[112, 56, 50, 54]], [[112, 55, 49, 50]], [[112, 54, 56, 49]], [[112, 49, 52, 57]], [[112, 53, 53, 48]], [[112, 55, 48, 51]], [[112, 51, 51, 56]], [[112, 51, 54, 49]], [[112, 55, 55, 56]], [[112, 57, 52, 52]], [[112, 49, 52, 48]], [[112, 49, 54, 55]], [[112, 49, 57, 53]], [[112, 52, 48]], [[112, 53]], [[112, 53, 56, 49]], [[112, 56, 48]], [[112, 50, 48, 53]], [[112, 49, 48, 49, 50]], [[112, 56, 52, 57]], [[112, 51, 52, 49]], [[112, 49, 52, 55]], [[112, 53, 53, 54]], [[112, 57, 53, 48]]]
def c2PathsChunk11 : List (List (List Nat)) := [[[112, 53, 51, 48]], [[112, 53, 50, 52]], [[112, 53, 50, 53]], [[112, 49, 54, 57]], [[112, 56, 56, 56]], [[112, 56, 53, 56]], [[112, 53, 52, 53]], [[112, 49, 48, 57]], [[112, 57, 56, 50]], [[112, 51, 49]], [[112, 51, 57, 50]], [[112, 56, 50, 56]], [[112, 56, 55, 55]], [[112, 54, 53, 53]], [[112, 54, 52, 49]], [[112, 53, 54, 55]], [[112, 50, 48, 55]], [[112, 56, 48, 57]], [[112, 55, 52, 51]], [[112, 53, 52, 57]], [[112, 51, 52, 56]], [[112, 55, 50, 57]], [[112, 57, 57, 49]], [[112, 51, 54, 57]], [[112, 56, 56, 49]], [[112, 57, 54, 57]], [[112, 55, 48, 56]], [[112, 54, 57, 55]], [[112, 55, 57, 55]], [[112, 52, 53]], [[112, 49, 53, 53]], [[112, 54, 53, 51]]]
def c2PathsChunk12 : List (List (List Nat)) := [[[112, 49, 48, 54]], [[112, 53, 52, 49]], [[112, 57, 54, 53]], [[112, 57, 50, 52]], [[112, 52, 49, 50]], [[112, 57, 48, 51]], [[112, 53, 55, 48]], [[112, 56, 54, 56]], [[112, 49, 49, 48]], [[112, 51, 56, 50]], [[112, 56, 53, 49]], [[112, 52, 52, 54]], [[112, 54, 56]], [[112, 54, 53]], [[112, 54, 53, 57]], [[112, 57, 56, 53]], [[112, 50, 57, 54]], [[112, 55, 54, 56]], [[112, 55, 48, 52]], [[112, 50, 52, 55]], [[112, 49, 53, 55]], [[112, 49, 54]], [[112, 57, 53, 57]], [[112, 49, 56, 52]], [[112, 55, 52, 53]], [[112, 54, 51, 53]], [[112, 52, 55, 48]], [[112, 53, 53, 57]], [[112, 54, 55, 54]], [[112, 50, 56, 57]], [[112, 49, 56, 49]], [[112, 50, 53]]]
def c2PathsChunk13 : List (List (List Nat)) := [[[112, 53, 57, 52]], [[112, 56, 57, 50]], [[112, 53, 49]], [[112, 56, 51, 51]], [[112, 50, 51, 52]], [[112, 55, 57, 51]], [[112, 50, 49, 48]], [[112, 53, 56, 56]], [[112, 54, 52, 51]], [[112, 50, 49]], [[112, 55, 56, 56]], [[112, 50, 56, 50]], [[112, 55, 55]], [[112, 53, 51, 56]], [[112, 56, 49, 57]], [[112, 51, 55, 57]], [[112, 49, 56, 57]], [[112, 57, 54, 48]], [[112, 53, 53, 53]], [[112, 51, 52, 48]], [[112, 55, 51, 55]], [[112, 53, 56, 54]], [[112, 53, 54, 52]], [[112, 50, 49, 54]], [[112, 57, 56, 54]], [[112, 55, 53, 56]], [[112, 55, 50, 51]], [[112, 54, 54, 54]], [[112, 55, 51, 53]], [[112, 50, 54, 48]], [[112, 54, 50, 52]], [[112, 55, 55, 52]]]
def c2PathsChunk14 : List (List (List Nat)) := [[[112, 49, 48, 48, 51]], [[112, 57, 55, 57]], [[112, 52, 48, 50]], [[112, 56, 53, 48]], [[112, 52, 49]], [[112, 50, 48, 48]], [[112, 53, 55, 53]], [[112, 51, 53, 55]], [[112, 49, 50, 57]], [[112, 49, 50, 49]], [[112, 55, 56]], [[112, 52, 56, 52]], [[112, 51, 50, 52]], [[112, 55, 55, 57]], [[112, 56, 49]], [[112, 56, 57, 53]], [[112, 53, 51, 49]], [[112, 49, 53, 57]], [[112, 49, 53, 56]], [[112, 53, 57, 57]], [[112, 52, 49, 57]], [[112, 54, 50, 53]], [[112, 56, 48, 56]], [[112, 53, 53, 50]], [[112, 56, 56]], [[112, 57, 49, 49]], [[112, 52, 52, 56]], [[112, 52, 49, 54]], [[112, 57, 51, 50]], [[112, 53, 48, 49]], [[112, 53, 50, 55]], [[112, 56, 57, 48]]]
def c2PathsChunk15 : List (List (List Nat)) := [[[112, 52, 53, 53]], [[112, 53, 48, 52]], [[112, 49, 57, 49]], [[112, 54, 48, 55]], [[112, 50, 57, 49]], [[112, 50, 55, 57]], [[112, 50, 53, 54]], [[112, 49, 52, 50]], [[112, 54, 57, 49]], [[112, 53, 50, 54]], [[112, 51, 52, 57]], [[112, 54, 54, 51]], [[112, 51, 50, 56]], [[112, 51, 56, 55]], [[112, 56, 49, 55]], [[112, 55, 51, 54]], [[112, 55, 51]], [[112, 50, 54, 52]], [[112, 55, 53, 50]], [[112, 54, 52]], [[112, 52, 50, 53]], [[112, 54]], [[112, 49, 48, 50, 51]], [[112, 55, 55, 49]], [[112, 50, 56, 54]], [[112, 49, 48, 56]], [[112, 55, 51, 51]], [[112, 54, 53, 56]], [[112, 49, 57, 56]], [[112, 53, 52, 54]], [[112, 52, 51, 56]], [[112, 57, 50, 50]]]
def c2PathsChunk16 : List (List (List Nat)) := [[[112, 55, 52, 56]], [[112, 51, 55, 49]], [[112, 49, 48, 49, 48]], [[112, 49, 51, 57]], [[112, 52, 48, 52]], [[112, 52, 48, 49]], [[112, 54, 54, 55]], [[112, 52, 51, 51]], [[112, 53, 54, 48]], [[112, 57, 54, 52]], [[112, 54, 53, 55]], [[112, 57, 53, 53]], [[112, 50, 57, 48]], [[112, 51, 49, 50]], [[112, 57, 57, 53]], [[112, 49, 49, 52]], [[112, 50, 51, 49]], [[112, 51, 54, 53]], [[112, 49, 53]], [[112, 49, 50, 53]], [[112, 56, 52, 54]], [[112, 49, 52, 53]], [[112, 54, 57]], [[112, 49, 56, 48]], [[112, 57, 49, 48]], [[112, 49, 57, 51]], [[112, 54, 54, 56]], [[112, 54, 53, 50]], [[112, 56, 48, 54]], [[112, 56, 55, 54]], [[112, 53, 56, 53]], [[112, 53, 48]]]
def c2PathsChunk17 : List (List (List Nat)) := [[[112, 53, 53, 49]], [[112, 51, 56, 53]], [[112, 49, 48]], [[112, 55, 56, 52]], [[112, 56, 57]], [[112, 50, 53, 56]], [[112, 55, 56, 53]], [[112, 51, 54, 50]], [[112, 53, 56, 52]], [[112, 51, 53, 51]], [[112, 57, 51, 49]], [[112, 53, 57, 54]], [[112, 57, 56, 48]], [[112, 54, 50, 57]], [[112, 52, 48, 57]], [[112, 53, 52, 56]], [[112, 53, 50, 48]], [[112, 55, 53]], [[112, 54, 50, 48]], [[112, 52, 52, 51]], [[112, 52, 52, 48]], [[112, 53, 56, 50]], [[112, 51, 57, 53]], [[112, 49, 50, 52]], [[112, 57, 55, 51]], [[112, 55, 50, 55]], [[112, 50, 54, 55]], [[112, 55, 48, 48]], [[112, 52, 50, 48]], [[112, 53, 55, 54]], [[112, 53, 55, 55]], [[112, 54, 51, 54]]]
def c2PathsChunk18 : List (List (List Nat)) := [[[112, 57, 53, 54]], [[112, 56, 51, 48]], [[112, 57, 53, 52]], [[112, 55, 51, 57]], [[112, 54, 54, 53]], [[112, 51, 50, 55]], [[112, 52, 51, 54]], [[112, 57, 49, 56]], [[112, 50, 49, 56]], [[112, 53, 55, 52]], [[112, 53, 49, 51]], [[112, 56, 52]], [[112, 50, 50, 51]], [[112, 53, 54, 54]], [[112, 50, 54]], [[112, 50, 48, 52]], [[112, 49, 55, 53]], [[112, 50, 53, 57]], [[112, 52, 53, 57]], [[112, 55, 54, 55]], [[112, 56, 50, 53]], [[112, 55, 57, 56]], [[112, 55, 51, 56]], [[112, 55, 56, 49]], [[112, 55, 48, 49]], [[112, 57, 52, 50]], [[112, 49, 49, 51]], [[112, 50, 50, 55]], [[112, 57, 56, 56]], [[112, 49, 48, 48, 53]], [[112, 50, 48, 50]], [[112, 54, 57, 57]]]
def c2PathsChunk19 : List (List (List Nat)) := [[[112, 57, 56, 52]], [[112, 52, 56, 55]], [[112, 49, 54, 50]], [[112, 52, 55, 54]], [[112, 54, 50]], [[112, 51, 53, 50]], [[112, 52, 56, 57]], [[112, 57, 49]], [[112, 49, 48, 48, 49]], [[112, 53, 49, 57]], [[112, 53, 49, 48]], [[112, 51, 48, 53]], [[112, 54, 55, 48]], [[112, 57, 55, 52]], [[112, 51, 53, 54]], [[112, 56]], [[112, 53, 52, 51]], [[112, 54, 53, 48]], [[112, 51, 50, 54]], [[112, 49, 53, 54]], [[112, 56, 54, 49]], [[112, 50, 52, 51]], [[112, 55, 52, 49]], [[112, 51, 48, 54]], [[112, 53, 49, 53]], [[112, 50, 53, 51]], [[112, 49, 48, 48, 50]], [[112, 55, 52, 48]], [[112, 57, 51, 57]], [[112, 50, 48, 49]], [[112, 51, 50]], [[112, 52, 56, 51]]]
def c2PathsChunk20 : List (List (List Nat)) := [[[112, 51, 53]], [[112, 57, 48, 53]], [[112, 54, 52, 56]], [[112, 56, 53, 54]], [[112, 49, 49, 50]], [[112, 51, 54]], [[112, 49, 53, 50]], [[112, 57, 52, 51]], [[112, 50, 56, 53]], [[112, 49, 51, 53]], [[112, 57, 50, 53]], [[112, 54, 51, 55]], [[112, 57, 56, 51]], [[112, 50, 50, 52]], [[112, 50, 51, 55]], [[112, 52, 57, 50]], [[112, 49, 52, 49]], [[112, 53, 49, 52]], [[112, 51, 53, 56]], [[112, 49, 57]], [[112, 55, 52, 50]], [[112, 52, 52, 50]], [[112, 53, 50, 56]], [[112, 55, 49, 49]], [[112, 56, 53, 53]], [[112, 56, 54, 52]], [[112, 51, 52, 55]], [[112, 57, 50, 56]], [[112, 49, 48, 48]], [[112, 50, 55, 51]], [[112, 53, 48, 51]], [[112, 50, 48, 54]]]
def c2PathsChunk21 : List (List (List Nat)) := [[[112, 54, 57, 51]], [[112, 52, 51, 53]], [[112, 52, 56, 56]], [[112, 52, 57, 53]], [[112, 53, 57, 49]], [[112, 57, 57, 54]], [[112, 55, 56, 50]], [[112, 52, 52, 53]], [[112, 53, 50]], [[112, 56, 56, 52]], [[112, 56, 56, 51]], [[112, 55, 56, 54]], [[112, 53, 52, 52]], [[112, 55, 53, 49]], [[112, 52]], [[112, 53, 57, 51]], [[112, 49, 48, 49, 56]], [[112, 49, 48, 48, 54]], [[112, 53, 54]], [[112, 49, 53, 48]], [[112, 53, 53, 56]], [[112, 49, 51, 49]], [[112, 53, 49, 54]], [[112, 54, 56, 55]], [[112, 55, 49, 52]], [[112, 56, 48, 55]], [[112, 57, 57, 55]], [[112, 54, 57, 52]], [[112, 56, 48, 50]], [[112, 50, 48, 51]], [[112, 55, 50, 52]], [[112, 52, 55, 53]]]
def c2PathsChunk22 : List (List (List Nat)) := [[[112, 49, 54, 48]], [[112, 53, 51, 52]], [[112, 56, 53, 57]], [[112, 50, 57, 52]], [[112, 49, 52]], [[112, 50, 57]], [[112, 57, 57, 57]], [[112, 54, 55, 51]], [[112, 49, 49, 53]], [[112, 52, 48, 55]], [[112, 49, 51, 51]], [[112, 54, 52, 52]], [[112, 50, 53, 53]], [[112, 53, 55, 57]], [[112, 54, 50, 50]], [[112, 55, 54, 48]], [[112, 49, 48, 51]], [[112, 51, 56, 57]], [[112, 52, 50, 55]], [[112, 52, 53, 52]], [[112, 50, 55, 53]], [[112, 56, 51, 54]], [[112, 51, 52]], [[112, 56, 51, 57]], [[112, 49, 48, 50, 50]], [[112, 55, 57, 53]], [[112, 52, 56, 53]], [[112, 57, 53, 49]], [[112, 56, 51, 56]], [[112, 54, 49, 52]], [[112, 49, 51, 50]], [[112, 49, 48, 49, 54]]]
def c2PathsChunk23 : List (List (List Nat)) := [[[112, 54, 50, 51]], [[112, 52, 51, 57]], [[112, 57, 54, 56]], [[112, 51, 55, 52]], [[112, 49, 49, 54]], [[112, 51, 53, 49]], [[112, 52, 48, 53]], [[112, 49, 54, 52]], [[112, 49, 48, 50]], [[112, 52, 54, 55]], [[112, 55, 49, 57]], [[112, 53, 49, 50]], [[112, 50, 56, 56]], [[112, 52, 55, 55]], [[112, 51, 53, 48]], [[112, 50, 50, 48]], [[112, 57, 54, 51]], [[112, 55, 55, 55]], [[112, 57, 49, 54]], [[112, 55, 48]], [[112, 52, 52, 57]], [[112, 50, 53, 48]], [[112, 54, 56, 50]], [[112, 53, 54, 53]], [[112, 57, 57, 48]], [[112, 55, 57]], [[112, 56, 57, 52]], [[112, 49, 50]], [[112, 54, 51, 51]], [[112, 55, 57, 52]], [[112, 54, 48, 56]], [[112, 54, 54, 57]]]
def c2PathsChunk24 : List (List (List Nat)) := [[[112, 50, 55]], [[112, 50, 50, 56]], [[112, 54, 49, 51]], [[112, 56, 48, 53]], [[112, 49, 55, 50]], [[112, 51, 48, 51]], [[112, 57, 48, 52]], [[112, 57, 57]], [[112, 57, 51, 52]], [[112, 57, 51, 54]], [[112, 54, 48, 52]], [[112, 50, 48]], [[112, 52, 54, 50]], [[112, 53, 50, 50]], [[112, 51, 54, 48]], [[112, 53, 56, 51]], [[112, 51, 53, 53]], [[112, 50, 48, 56]], [[112, 51, 53, 57]], [[112, 54, 50, 49]], [[112, 55, 57, 54]], [[112, 50, 49, 52]], [[112, 57, 52, 55]], [[112, 51, 49, 57]], [[112, 49, 55, 56]], [[112, 52, 52, 52]], [[112, 53, 56, 55]], [[112, 56, 52, 52]], [[112, 49, 52, 54]], [[112, 49, 48, 48, 48]], [[112, 52, 57, 49]], [[112, 51, 50, 48]]]
def c2PathsChunk25 : List (List (List Nat)) := [[[112, 53, 57, 50]], [[112, 49, 49, 55]], [[112, 52, 56, 49]], [[112, 54, 56, 53]], [[112, 54, 48, 53]], [[112, 54, 48, 51]], [[112, 52, 50, 51]], [[112, 50, 55, 49]], [[112, 57, 49, 51]], [[112, 52, 50, 54]], [[112, 53, 53]], [[112, 54, 51, 52]], [[112, 49, 55, 51]], [[112, 56, 50, 57]], [[112, 49, 48, 48, 57]], [[112, 52, 55, 50]], [[112, 55, 55, 51]], [[112, 49, 56, 51]], [[112, 54, 55, 55]], [[112, 51, 49, 48]], [[112, 53, 48, 50]], [[112, 55, 55, 54]], [[112, 52, 48, 56]], [[112, 49, 56, 56]], [[112, 56, 50, 49]], [[112, 52, 49, 49]], [[112, 51, 48, 49]], [[112, 55, 49, 55]], [[112, 49, 48, 49, 49]], [[112, 56, 53, 55]], [[112, 57, 57, 50]], [[112, 56, 55, 51]]]
def c2PathsChunk26 : List (List (List Nat)) := [[[112, 49, 51, 56]], [[112, 57, 48, 54]], [[112, 56, 55]], [[112, 51, 51, 55]], [[112, 53, 53, 52]], [[112, 51, 54, 51]], [[112, 57, 51]], [[112, 49, 48, 49, 55]], [[112, 51, 56, 49]], [[112, 56, 52, 48]], [[112, 52, 57, 54]], [[112, 55, 54, 57]], [[112, 54, 56, 48]], [[112, 50, 52, 50]], [[112, 49, 50, 48]], [[112, 51, 57, 52]], [[112, 50, 51, 51]], [[112, 51, 49, 54]], [[112, 49, 50, 55]], [[112, 56, 56, 57]], [[112, 50, 55, 55]], [[112, 57, 50, 49]], [[112, 54, 54, 48]], [[112, 57, 55]], [[112, 56, 55, 53]], [[112, 56, 50, 52]], [[112, 54, 52, 57]], [[112, 49, 48, 48, 55]], [[112, 54, 55, 57]], [[112, 52, 55, 52]], [[112, 55, 57, 57]], [[112, 49, 51, 48]]]
def c2PathsChunk27 : List (List (List Nat)) := [[[112, 55, 54, 50]], [[112, 52, 50]], [[112, 52, 54, 53]], [[112, 56, 56, 55]], [[112, 57, 48, 57]], [[112, 51, 56, 54]], [[112, 51, 56, 52]], [[112, 50, 52]], [[112, 52, 55, 51]], [[112, 52, 54]], [[112, 49, 55, 52]], [[112, 57, 55, 56]], [[112, 54, 49, 57]], [[112, 50, 51, 53]], [[112, 56, 52, 55]], [[112, 55, 49, 51]], [[112, 52, 49, 48]], [[112, 56, 51]], [[112, 51, 57, 54]], [[112, 49, 55, 48]], [[112, 49, 51]], [[112, 52, 52, 55]], [[112, 49, 57, 54]], [[112, 54, 49, 48]], [[112, 55, 53, 54]], [[112, 57, 51, 53]], [[112, 51, 51, 51]], [[112, 54, 56, 52]], [[112, 52, 49, 55]], [[112, 53, 55, 50]], [[112, 49, 48, 53]], [[112, 53, 54, 56]]]
def c2PathsChunk28 : List (List (List Nat)) := [[[112, 52, 50, 56]], [[112, 51, 49, 51]], [[112, 52, 56]], [[112, 52, 50, 52]], [[112, 56, 50, 51]], [[112, 53, 53, 55]], [[112, 50, 51, 54]], [[112, 54, 56, 56]], [[112, 54, 54]], [[112, 56, 51, 52]], [[112, 49, 50, 51]], [[112, 57, 49, 52]], [[112, 52, 49, 53]], [[112, 56, 50, 50]], [[112, 52, 56, 48]], [[112, 55, 54, 54]], [[112, 55, 57, 50]], [[112, 52, 51, 55]], [[112, 50, 50]], [[112, 50, 52, 52]], [[112, 57, 53, 55]], [[112, 54, 55, 49]], [[112, 52, 54, 51]], [[112, 57, 48, 56]], [[112, 57, 54, 49]], [[112, 50, 57, 53]], [[112, 52, 51]], [[112, 57, 48, 48]], [[112, 50, 49, 53]], [[112, 49, 55, 54]], [[112, 50, 50, 54]], [[112, 52, 54, 54]]]
def c2PathsChunk29 : List (List (List Nat)) := [[[112, 55, 48, 53]], [[112, 52, 50, 57]], [[112, 51, 51, 48]], [[112, 56, 49, 54]], [[112, 53, 57, 56]], [[112, 54, 48, 54]], [[112, 51, 48]], [[112, 55, 50, 48]], [[112, 55, 52, 55]], [[112, 52, 55]], [[112, 53, 56, 48]], [[112, 53, 54, 57]], [[112, 51, 52, 54]], [[112, 53, 57, 48]], [[112, 53, 52, 50]], [[112, 51, 57, 49]], [[112, 55, 54]], [[112, 52, 48, 48]], [[112, 55, 55, 53]], [[112, 50, 52, 56]], [[112, 55, 53, 48]], [[112, 54, 53, 49]], [[112, 51, 57, 55]], [[112, 51, 54, 54]], [[112, 53, 50, 51]], [[112, 51, 55, 54]], [[112, 56, 54, 57]], [[112, 51, 49, 53]], [[112, 57, 49, 57]], [[112, 54, 54, 49]], [[112, 56, 48, 52]], [[112, 52, 54, 52]]]
def c2PathsChunk30 : List (List (List Nat)) := [[[112, 51, 55, 48]], [[112, 54, 52, 54]], [[112, 55, 49, 48]], [[112, 49, 56, 50]], [[112, 55, 56, 55]], [[112, 52, 53, 49]], [[112, 54, 48, 50]], [[112, 54, 48, 57]], [[112, 54, 49]], [[112, 49, 57, 55]], [[112, 50, 52, 54]], [[112, 53, 53, 51]], [[112, 57, 52, 56]], [[112, 55, 48, 54]], [[112, 57, 56, 49]], [[112, 54, 51, 48]], [[112, 53, 54, 49]], [[112, 53, 50, 49]], [[112, 52, 53, 51]], [[112, 52, 51, 49]], [[112, 50, 50, 49]], [[112, 55, 51, 48]], [[112, 53, 51, 54]], [[112, 51, 52, 50]], [[112, 53, 57, 53]], [[112, 55, 56, 48]], [[112, 50, 56, 48]], [[112, 56, 54]], [[112, 56, 56, 53]], [[112, 49, 56]], [[112, 54, 48, 48]], [[112, 49, 57, 52]]]
def c2PathsChunk31 : List (List (List Nat)) := [[[112, 56, 53, 52]], [[112, 52, 57]], [[112, 49]], [[112, 55, 50, 49]], [[112, 51, 50, 57]], [[112, 52, 54, 56]], [[112, 57, 53]], [[112, 49, 55, 49]], [[112, 49, 54, 49]], [[112, 57, 55, 48]], [[112, 50, 55, 56]], [[112, 56, 55, 52]], [[112, 50, 56, 49]], [[112, 51, 55, 51]], [[112, 50, 51, 50]], [[112, 55, 57, 49]], [[112, 50, 53, 52]], [[112, 56, 57, 55]], [[112, 50, 56, 51]], [[112, 53, 51, 50]], [[112, 50, 50, 57]], [[112, 53, 49, 55]], [[112, 54, 49, 56]], [[112, 57, 57, 51]], [[112, 52, 49, 51]], [[112, 50, 52, 49]], [[112, 50, 54, 50]], [[112, 55, 53, 51]], [[112, 51, 48, 57]], [[112, 57, 51, 55]], [[112, 50, 55, 48]], [[112, 49, 52, 51]]]

/-- The further scenario paths in registration order. -/
def c2ps : List (List (List Nat)) :=
  c2PathsChunk00 ++ c2PathsChunk01 ++ c2PathsChunk02 ++ c2PathsChunk03 ++ c2PathsChunk04 ++ c2PathsChunk05 ++ c2PathsChunk06 ++ c2PathsChunk07 ++ c2PathsChunk08 ++ c2PathsChunk09 ++ c2PathsChunk10 ++ c2PathsChunk11 ++ c2PathsChunk12 ++ c2PathsChunk13 ++ c2PathsChunk14 ++ c2PathsChunk15 ++ c2PathsChunk16 ++ c2PathsChunk17 ++ c2PathsChunk18 ++ c2PathsChunk19 ++ c2PathsChunk20 ++ c2PathsChunk21 ++ c2PathsChunk22 ++ c2PathsChunk23 ++ c2PathsChunk24 ++ c2PathsChunk25 ++ c2PathsChunk26 ++ c2PathsChunk27 ++ c2PathsChunk28 ++ c2PathsChunk29 ++ c2PathsChunk30 ++ c2PathsChunk31

/-- Big-endian value of the first eight bytes of each scenario path's
handle key, precomputed to decide that the keys are pairwise distinct. -/
def c2Key0 : Nat := 1482478022799552319

def c2KeysChunk00 : List Nat := [10628960721946418, 46896190326941995, 61653746618326357, 62954945633260293, 69537261235048092, 75015962591583925, 107992647765364162, 109604743040264307, 133475606829515452, 134983573449348619, 141184017543861039, 141819153587779654, 149818199525458157, 162323071589130588, 186781922456837757, 192010835079994973, 194175353097144731, 200456614514455327, 228614464372524503, 232069203104778163, 235779075069266521, 249188376245613469, 253327376651992189, 279818526464786653, 287055462170717130, 315097803708983417, 320820159272059807, 337274420694913421, 341856421854442039, 354216439707638246, 356896614601623152, 364718814335345428]
def c2KeysChunk01 : List Nat := [368374483979265934, 382354026081826152, 386082601633852586, 386534376382179707, 393376522751783471, 395888628074544222, 428307837305284276, 428656016176127434, 433688109405201862, 470080926370292136, 498886283740103135, 535296536632764992, 556431432496834398, 560241617194180280, 570064709279663589, 613416820082400551, 614987111219609955, 677892726583993941, 694051420499607648, 705031899837562200, 759482030863196673, 787265791614859458, 789440399886161328, 798789085765376103, 804017972488836254, 857982591138518749, 872437859444947038, 885333488330648124, 885472335781015700, 892880741108665875, 918714103911881743, 919853503307403635]
def c2KeysChunk02 : List Nat := [921000673216558563, 934640331015041531, 942107017338779014, 965715023548133994, 976195705827119716, 977016180096179725, 994492621060014617, 1001490650476723279, 1012034401749742209, 1037294002719681366, 1039038911424262025, 1041112069323159220, 1052876652517775081, 1088837261270214425, 1148868991523602850, 1163083362718766642, 1170094111922437329, 1175750464525918025, 1179829112809653996, 1185721127258897928, 1189728686265567896, 1210490694657344588, 1255306652335447683, 1255684847001236623, 1257929371240403253, 1265062123302335260, 1270987061764747580, 1294194649703687133, 1307377741609442340, 1313301319587577074, 1337982723867836793, 1348357142056918041]
def c2KeysChunk03 : List Nat := [1361475678683813810, 1398660161301154635, 1415548668429345138, 1497319135743625826, 1547598729350378356, 1610800785745770822, 1628996305141544524, 1640776948249143156, 1644792510258698619, 1663810196813534146, 1666062860981175163, 1669770320132908900, 1685161762862654345, 1691290327061028783, 1713977284309882404, 1737959473564313628, 1765503558893226954, 1799142516195969291, 1823881079274151041, 1831119689916865757, 1899330653830199021, 1915538846252258588, 1963523359674938302, 1999993641355813476, 2011045377885898896, 2014006748929961726, 2015368797142495191, 2027013790080223889, 2043707605305045187, 2057294832197246806, 2058317355912615664, 2109448464191489414]
def c2KeysChunk04 : List Nat := [2112631038319037166, 2118634096008969049, 2119477315688270827, 2155458585739557060, 2216204736032095865, 2251407279660901403, 2252074600307513035, 2285470450957110863, 2315893864172625859, 2322579613110113439, 2347056655316973700, 2353552521850108947, 2360124524317427462, 2416506330232178674, 2417673481998356670, 2459188154000860347, 2471210275409117983, 2480673971940234885, 2502464136708643204, 2518712790088933331, 2533711334904983354, 2566247379854120013, 2583746642892114708, 2608272449908012999, 2608396088531758366, 2660048040123892324, 2702356789814322606, 2715240404852386744, 2721732458470459722, 2743972295077565936, 2744898452928275206, 2756186400098502414]
def c2KeysChunk05 : List Nat := [2788673826588841893, 2831810673611938499, 2848463777783352498, 2853550896343606240, 2864539997323579392, 2891080601729029376, 2920210340069919323, 2930755950433620646, 2931758254276795596, 2936228562069315982, 2940541376335789023, 2997807904822969574, 2998517524092646655, 3025246489268547290, 3036140217537297858, 3069182287279111046, 3117736920880162921, 3148920041708901310, 3167703520978353850, 3204914119914881350, 3218228387554942254, 3230785666606152974, 3232989557680801355, 3234740423945480722, 3237255644456138825, 3238425610220300640, 3261985478215707947, 3300460013618588597, 3349254986394152028, 3352910903253400760, 3363609564474625228, 3405528348673744809]
def c2KeysChunk06 : List Nat := [3416199756417596649, 3422452567189501824, 3483786671304938959, 3495295546019861925, 3495501009942790144, 3506804498953288493, 3507884850807083257, 3514561104382922355, 3522368793137972343, 3557247421093997118, 3582921321652121862, 3583814209845178631, 3607193121862266073, 3610741752439075788, 3648267801991087623, 3658735754187356984, 3715233428057745643, 3719301513744726474, 3738001744171242377, 3770005050754774688, 3771124737030774432, 3772745262443965980, 3789060831280668156, 3797316595730107875, 3801308382902147939, 3897204773626699703, 3910466864246969369, 3910990866899418103, 3917072000528851655, 3950285799734948840, 3961075636548761308, 3988800843077307288]
def c2KeysChunk07 : List Nat := [3992802843571014176, 4036440895564496511, 4071328769041023449, 4112117975942150782, 4125765959489566507, 4127208643663288636, 4139768661711413342, 4179594851605860567, 4187013387758999229, 4203678235785424157, 4224024213240879310, 4231628277065734038, 4238464456877820836, 4238506001824743815, 4239817141286414371, 4245878548041821878, 4248905706709505295, 4259816185829586194, 4268444397756666019, 4282423431237810109, 4312457188046091625, 4314947623370309409, 4318001491059819196, 4327573053333895200, 4347900691971156189, 4357722403791396108, 4363435470665663215, 4372112529562932507, 4374808877256076409, 4398928180580551617, 4431784051913854377, 4505699275159213968]
def c2KeysChunk08 : List Nat := [4506138355053650579, 4508575762049498734, 4546950167538032434, 4549138589522911966, 4553063924687739032, 4553636456199989683, 4569524306009522710, 4569603181644916401, 4595612644333802589, 4598821710252603078, 4632029190512935673, 4636386589554082650, 4648504631897054428, 4648651659290933253, 4658243451223970323, 4661183914296919839, 4682549613961157792, 4688244910810332659, 4712995035113765857, 4733220325145900639, 4742442678841605940, 4750087941874319135, 4821995589713603933, 4866214173000814376, 4880495518003204261, 4882636610321551033, 4899679596352790999, 4919884250754704566, 4931342585904804004, 4946869142808180910, 4957764017663500994, 4980338393804167069]
def c2KeysChunk09 : List Nat := [4985191971288942862, 4996564737608675923, 5014023852228137624, 5023912026553912431, 5053543231495698175, 5079086075342525438, 5125884210060238350, 5139625326469366370, 5158687871470462706, 5185583743753512148, 5208894558283027195, 5210519417977052294, 5213905946977059648, 5229391524616119892, 5233696234211871369, 5243871142804304586, 5267219687953121027, 5267781316253264666, 5283794406904214355, 5314406586081853649, 5322132829990675307, 5349506465281764898, 5351823424891851569, 5358622277907456533, 5359046513311746220, 5393488052032900675, 5399961939492467260, 5400677652765840846, 5414411929911455219, 5443565803456191511, 5469869888683931101, 5477363772239022239]
def c2KeysChunk10 : List Nat := [5534387054050145783, 5535872744975265006, 5552138775934427598, 5553717007036529425, 5585471712210882848, 5740070232849224792, 5740713731060209015, 5818235063802460334, 5839612805932462469, 5840870300570137406, 5842435507176462665, 5846000099778293864, 5849187861739132544, 5852717660936771934, 5853460420605675887, 5855444742023384222, 5859002161552062047, 5913001957600725823, 5948351576565939355, 5954920886820079190, 6001756644914272921, 6007306445114244109, 6011237992199249758, 6013980841913028601, 6016253118867573088, 6067435555398771775, 6094481872598747004, 6100296345303332882, 6101023556886134340, 6116649035928733719, 6131701342813421947, 6144218581769054897]
def c2KeysChunk11 : List Nat := [6147054274765384562, 6186675111136990882, 6199789808324224162, 6206324432816793942, 6230760659468659217, 6256275312304231875, 6282286940658177143, 6304031059874041044, 6307606670948530691, 6320861587897130932, 6334631223858931485, 6366794084969806763, 6375800876516723080, 6384071682387143878, 6386009318149758622, 6386737162029748440, 6443321205790943937, 6495437232583679875, 6499291657053419685, 6502453560782225014, 6544095609640418821, 6573057732951935813, 6597078121204209699, 6609688503163030584, 6615898215780921870, 6647145620960011839, 6651836292500759941, 6680604200003296151, 6733555878074457690, 6736249285013084297, 6755341084588849549, 6772997696856993897]
def c2KeysChunk12 : List Nat := [6775117155344224659, 6780921777711533081, 6782723708295296226, 6849358581141775190, 6880266056224734325, 6896592034129018708, 6918708597560285186, 6936355526975772784, 6953451392191143299, 6972007783558898134, 7031625295992609921, 7035840203218514603, 7038442803763908579, 7052565743446395419, 7058669704002687047, 7085968211153466405, 7097749115828958592, 7140803213151261478, 7145190791262376127, 7192402314064148024, 7193067904258141404, 7194132447505820272, 7205083112213776072, 7213863076926008350, 7215627711516729916, 7252325028633373145, 7349390833561693387, 7357459873243157828, 7366627286774578628, 7367820420568602214, 7372204274904111222, 7380727340453218630]
def c2KeysChunk13 : List Nat := [7396317742461492371, 7408517344508646986, 7423361900611775792, 7426661460759464913, 7457339344848250343, 7479551734085842310, 7506551485964660300, 7535690532969513708, 7535872717056877388, 7536617605205021439, 7589019309054267832, 7647788979302425647, 7664383224826517846, 7680791150401031111, 7701567406787419634, 7706318819411601765, 7708312468285291440, 7719095018479525596, 7745995894042218155, 7751557340007315939, 7780408847602218870, 7783104082813973980, 7805393429469442620, 7830577062525328793, 7848218689379205636, 7863372126900506580, 7878256264246972124, 7889587245552335637, 7896922352263283770, 7938301328925743031, 7950495020237791440, 7987587769376733647]
def c2KeysChunk14 : List Nat := [8012256061587302104, 8082075761633771520, 8122389221839609558, 8137929002172970770, 8141030795765438632, 8153429473520354505, 8153935547570536887, 8156933894742295089, 8215953730869251821, 8216535352262731626, 8260878971981297374, 8261531473333585423, 8265828724115708038, 8300028579222418811, 8312454840520466700, 8317715191822346765, 8336876212535759880, 8357194735352866910, 8368003151845026855, 8375155390852259357, 8397644772135258873, 8465820255273699922, 8496146315903194512, 8499299573329885427, 8509961826725813055, 8515499259428131366, 8521847673949793160, 8567972874101983601, 8572464320957082631, 8575840303006804058, 8598133064375948644, 8611087984328780784]
def c2KeysChunk15 : List Nat := [8630682071990000488, 8701299199491753662, 8708712246016171048, 8710539420984726868, 8715322724514870916, 8720930648958322131, 8756664345624106264, 8760658040485619269, 8780339860875376627, 8802453526937354079, 8818967339813421420, 8826566443532077019, 8843382304246714522, 8846070893118206649, 8848688694395015440, 8860151685212815513, 8867845580375953461, 8908988879833334215, 8925905627486442252, 8951966931096729452, 8971211054782923513, 9009585393098297614, 9020915858102152260, 9022208029385164122, 9027408092057340892, 9028770486293774490, 9052505752210570739, 9063869877719143705, 9076832367665707671, 9082487534583590063, 9092680597389646206, 9100526158508237191]
def c2KeysChunk16 : List Nat := [9116036547337339258, 9124500387820196686, 9132264889216454090, 9149247116929871177, 9150158059539947453, 9157790091910733384, 9177135464929928282, 9179671822419465923, 9181792152937923756, 9181801598625493914, 9198119678286586549, 9207398361537021927, 9310281473395188275, 9340471519234598086, 9347335572229630290, 9412412733028145494, 9460379418797922947, 9480423833456395220, 9483965003311544473, 9528651936904657272, 9551195582918081512, 9561222048590312326, 9578306785475850149, 9594046196774730141, 9650521575751905942, 9659494265891348706, 9678045115105338227, 9684934485841285800, 9715099143805327097, 9731848560329629350, 9735755100976930903, 9752042125714437086]
def c2KeysChunk17 : List Nat := [9772264094429926160, 9800924347481569165, 9826964798736268048, 9836246632633476657, 9850171625932360036, 9870941130472449935, 9886724156476386534, 9894291577049899731, 9929688650170419594, 9969113233027901122, 9984955902143126580, 10010334982168832127, 10010899189661699859, 10025189066271448051, 10037270829067418412, 10103912042542345699, 10121035566127273297, 10167238579577236652, 10170118449903937030, 10172104132585595572, 10229558123201922645, 10229968491194530280, 10234179369439361175, 10239878441048540734, 10247287090973783080, 10257620089034457790, 10269468763237840560, 10279920260438720375, 10281082200170144917, 10281797670088046350, 10293555827918822604, 10294580721901435637]
def c2KeysChunk18 : List Nat := [10325748376596219203, 10328892033969616175, 10354716797339959883, 10355837886865054889, 10365985807280068278, 10377437625881724529, 10378029214002200146, 10396145362138777183, 10402879292351142557, 10406619987685954694, 10456838092632938267, 10490604393930218163, 10514657932521981532, 10518536919715727452, 10547192165805028000, 10554209288953260161, 10599479491716727185, 10620370932619989636, 10630365942339093517, 10632867345406273662, 10660928801812580272, 10690104656809785255, 10700574904525278732, 10766993896641966889, 10783351198045647908, 10834834128512727296, 10843174349751175356, 10843371522705657024, 10899400910832420219, 10901337070852479693, 10908308991752785755, 10934495770294767763]
def c2KeysChunk19 : List Nat := [10968554480875695528, 10979940314070306847, 10980556161661816825, 11010055731941574663, 11018742066613697817, 11075247119195150769, 11091642891480255014, 11098630624892072520, 11117958440568807092, 11121113678512181104, 11126862928467514456, 11152767730689557556, 11161299606664222435, 11165939304658718359, 11199485221289215065, 11206574914738830472, 11224781941550544284, 11231204889068362677, 11254394067297256831, 11258710245608148102, 11260389840984397336, 11274304281904079258, 11274916084888614106, 11276023020408751063, 11299508100883603041, 11332044748943748790, 11332180880452200786, 11417759386282248095, 11439584540865779869, 11472784472675716323, 11478170518753210446, 11482487770509366935]
def c2KeysChunk20 : List Nat := [11486442480965967727, 11503727918018609427, 11510027187489714365, 11535989458037507903, 11559755937515437774, 11562978883867461326, 11564671613147361653, 11578817014753016102, 11586302916102306274, 11604377901196853689, 11612028865164184905, 11664325224203517882, 11671865337727234532, 11677678543265518590, 11715167876778908682, 11717811671871802574, 11718899478547308179, 11719568696790771042, 11719892770416813189, 11759242217856006395, 11792483573989908283, 11828494835934622497, 11835771206976527299, 11851821482117197189, 11870065647308978608, 11889029841346645365, 11914332634935384348, 11948072117494681194, 11967172374887133410, 11969742714001938795, 11985762453210236679, 12045097550684121654]
def c2KeysChunk21 : List Nat := [12052275205745882032, 12055021216467313194, 12057965749285758779, 12066426441219137306, 12079138784409972359, 12097288980489944487, 12106914867551500598, 12171447201632999731, 12200143591101737958, 12210492776666601369, 12224748732425458957, 12242000904904308277, 12304750044792705917, 12340185244989262697, 12353932658518805858, 12355154522973694216, 12371209677452979631, 12376065233837850898, 12377937832807612802, 12385360057675543378, 12396337754404805116, 12397854362157018893, 12406119602221215907, 12448616087177403779, 12499388836344637100, 12534069193860272570, 12552804172589293825, 12616373483117073836, 12627402090630715517, 12656580550519453721, 12721860347030148187, 12726297816357423231]
def c2KeysChunk22 : List Nat := [12730712926397433143, 12734514469042529480, 12744201779089055382, 12756631661921762391, 12762807832052207187, 12769612979057774147, 12794503327943942128, 12799134410006587892, 12814994779246573738, 12819250936848549825, 12832746205139916765, 12848696460268312329, 12850825437608989389, 12871223916565481777, 12879407365701162211, 12934718783588952608, 12983285995990945159, 12988249624972901001, 13000025887679220066, 13008768998607621131, 13019036695572089917, 13027498908896571075, 13037765617093978157, 13043496685186783123, 13052502641562203332, 13056747067784792230, 13060377637127224496, 13077897750708311493, 13078338440250792575, 13083120333806881012, 13088630264192341352, 13158022100930053723]
def c2KeysChunk23 : List Nat := [13196862232716913090, 13226424602024454842, 13228392480596126732, 13237714465237289618, 13267045896137030467, 13280421200897601660, 13282650918405800592, 13292094194818326413, 13302266134038716584, 13302888934942975201, 13303966257882892946, 13335527577608308333, 13368774319488406427, 13374982691442042504, 13378355242157173055, 13405817170831176144, 13471513573394685814, 13483612660447784919, 13487394014467645883, 13510792368595467747, 13522926174465091428, 13560534290743132091, 13572550723138668211, 13587613300692683759, 13616340173513869324, 13642799040103094079, 13660254665976099776, 13677369037271302888, 13709489052949637092, 13722809525899545535, 13732386432101554822, 13793812536731527501]
def c2KeysChunk24 : List Nat := [13795347961854901050, 13798979153450822540, 13804653154589595646, 13820470409841531253, 13835612532315204581, 13858182278824074918, 13861817882232354251, 13897644614389749868, 13919853185738069854, 13952273899406431203, 13953872774211516430, 13970956913648285029, 13982441037316920473, 13997931977406097292, 14010723644702994683, 14017420355475254306, 14023359516322491318, 14023927099340747394, 14068682849182955375, 14095015911286477698, 14145425634913956458, 14146111269449865600, 14170708185250653927, 14206436431079855608, 14208922498826483450, 14217266034941949620, 14236452884367677504, 14251400595164955400, 14255034531787350278, 14275094599210188950, 14280309341025380499, 14280979739360387551]
def c2KeysChunk25 : List Nat := [14319941882768169515, 14337066351092574865, 14350788967829351213, 14354711828906440087, 14368209228772124625, 14396227219567068517, 14413733840726425038, 14454367545042771139, 14485300297173674554, 14485432035304931439, 14495155625474646338, 14498524603013118972, 14521727914883503594, 14543172811438695454, 14591610489960831984, 14607641984147243788, 14625315573962327230, 14674901275626246901, 14691072274784865451, 14695864417860965646, 14696513888440826305, 14697106803748640566, 14704132141506585360, 14706540848113822146, 14706863983285486520, 14727980879756889556, 14750905837855043918, 14752309777111286004, 14758507367972346127, 14765422442215556090, 14780441452193645326, 14784008565785446396]
def c2KeysChunk26 : List Nat := [14830216936798596853, 14843300942025514527, 14851572973215083718, 14863622488672164984, 14865348443995170863, 14866571496901906411, 14877907961524804798, 14899831242961018966, 14905907194266727507, 14942370608240675602, 14978661685886483130, 15023781664191765970, 15055192475236226619, 15082237363301556128, 15083503451699671912, 15084002562539719356, 15100906181126662776, 15103171078143862635, 15122282896588054181, 15139250953821308183, 15140184412585769309, 15168295990277103989, 15170059838447771303, 15206114434119243313, 15223405832343467188, 15224362701630735212, 15293641649951857163, 15323925010917353370, 15351806762150686687, 15356778085994624530, 15443383777349480104, 15460915004568603313]
def c2KeysChunk27 : List Nat := [15461037315799345714, 15478219157746466736, 15478495370953148871, 15486573084151796601, 15524964161501699816, 15544618937420712828, 15547246060546492782, 15583013526033093733, 15593353521812859124, 15599635998643153954, 15601842293275605325, 15637993051496465727, 15719219547177763228, 15734842912655740371, 15741628103095867826, 15742615877992052196, 15785827023490674452, 15811894693755318417, 15823675442413210718, 15836937274080106970, 15893856116868915156, 15935899016669004826, 15955038200798522266, 15974178381418189832, 15985451233635796589, 15987548729704958921, 15994720316360137183, 15998344927221103960, 16012837554475308292, 16029247645605520002, 16039123523628149521, 16040658375525815267]
def c2KeysChunk28 : List Nat := [16043724326809053076, 16049095838044388936, 16075888887447891621, 16082658799537795806, 16084688086416789688, 16113262407131965308, 16114110817814882712, 16116618775170609434, 16134205682938219241, 16180980370358438380, 16214643318948265441, 16259052936132431320, 16271309809873483807, 16295072938309221032, 16299793090765803293, 16377965998411173678, 16394612821394535608, 16446328574703489671, 16494468712382119918, 16503752807612142643, 16511302406242552309, 16514164030485630992, 16514536630039695683, 16526563057302955108, 16544241762070692884, 16550352255381357120, 16563987304530746096, 16584564830316390813, 16589912538781985482, 16592097733383933026, 16656559798332861805, 16692736176973792061]
def c2KeysChunk29 : List Nat := [16709691554076211842, 16715106998667902564, 16731397022667066058, 16738166774794341319, 16739332974132853129, 16770381501741425180, 16800235087955340981, 16830602193729315258, 16855980576133852016, 16881307049172046689, 16884239083040310725, 16897864889515042739, 16923316402600780970, 16934089010847446645, 16944712194659832876, 16948642347388230243, 16976261869687920701, 16977272329193859901, 16981661701717330030, 16984269894129747934, 16985017364291505331, 17014731278848662799, 17042298521758311855, 17140181679850081777, 17149618569125843733, 17154503940996681417, 17165821477568123553, 17190903808391402851, 17224630637066493186, 17231761972819899390, 17276050312238819021, 17279907556075599615]
def c2KeysChunk30 : List Nat := [17311641549613906773, 17312784514011720829, 17334453704001882768, 17342827266779015607, 17344846930933752532, 17363129093283905601, 17370287237622740883, 17397994263250675677, 17407304888188182697, 17409565347507673505, 17415223817813929127, 17429226917364451856, 17454164355894095215, 17471883153310062927, 17471952076484985427, 17476037703648067802, 17497038393502210336, 17509209816656749935, 17582749050556000360, 17583586409563846805, 17639166415007899440, 17645207488628400831, 17657114265515155247, 17668316022170360503, 17671977405521735095, 17678353736319604501, 17681934965072644283, 17689970657761557418, 17694382279493655529, 17694523406173158088, 17711898015539314247, 17718313828107783783]
def c2KeysChunk31 : List Nat := [17731563612505763727, 17738994082483768628, 17745680053102999587, 17764426444396490558, 17767956002244366417, 17777217068012403116, 17830301587599150802, 17850814849275733934, 17907550177586184708, 17917016787559050704, 17969761477463443521, 17972250852254058091, 17982046714911781406, 18035053775250809839, 18041483857399322468, 18078098626481374097, 18143316269535062548, 18161292713353614286, 18176253267808212762, 18190907727428864517, 18197317229896723643, 18228136421216032713, 18228973970940057399, 18251828241337025618, 18265124656196286265, 18312502180170412852, 18329553244834918195, 18344139677869757301, 18351918567248985752, 18352592557016682426, 18433973472660326381, 18445502501751590806]

def c2KeysRest : List Nat :=
  c2KeysChunk00 ++ c2KeysChunk01 ++ c2KeysChunk02 ++ c2KeysChunk03 ++ c2KeysChunk04 ++ c2KeysChunk05 ++ c2KeysChunk06 ++ c2KeysChunk07 ++ c2KeysChunk08 ++ c2KeysChunk09 ++ c2KeysChunk10 ++ c2KeysChunk11 ++ c2KeysChunk12 ++ c2KeysChunk13 ++ c2KeysChunk14 ++ c2KeysChunk15 ++ c2KeysChunk16 ++ c2KeysChunk17 ++ c2KeysChunk18 ++ c2KeysChunk19 ++ c2KeysChunk20 ++ c2KeysChunk21 ++ c2KeysChunk22 ++ c2KeysChunk23 ++ c2KeysChunk24 ++ c2KeysChunk25 ++ c2KeysChunk26 ++ c2KeysChunk27 ++ c2KeysChunk28 ++ c2KeysChunk29 ++ c2KeysChunk30 ++ c2KeysChunk31

def c2AllKeys8 : List Nat :=
  c2Key0 :: c2KeysRest


/-- States of the server reachable in operation: both caches well-formed. -/
def Server.WF (s : Server) : Prop :=
  s.pathForHandle.WF ∧ s.contentsForVerifier.WF

instance (s : Server) : Decidable s.WF := by
  unfold Server.WF; infer_instance

/-! ## LRU lemmas -/

section LRULemmas

variable {K V : Type} [DecidableEq K]

lemma find_key_append_self (l : List (K × V)) (k : K) (v : V)
    (h : ∀ p ∈ l, p.1 ≠ k) :
    (l ++ [(k, v)]).find? (fun p => decide (p.1 = k)) = some (k, v) := by
  rw [List.find?_append]
  have h1 : l.find? (fun p => decide (p.1 = k)) = none := by
    rw [List.find?_eq_none]
    intro x hx
    simpa using h x hx
  rw [h1]
  simp [List.find?]

lemma mem_eraseP_key_ne (l : List (K × V)) (k : K)
    (h : (l.map Prod.fst).Nodup) :
    ∀ p ∈ l.eraseP (fun q => decide (q.1 = k)), p.1 ≠ k := by
  induction l with
  | nil => simp [List.eraseP]
  | cons a t ih =>
    simp only [List.map_cons, List.nodup_cons] at h
    by_cases hak : a.1 = k
    · rw [List.eraseP_cons_of_pos (by simpa using hak)]
      intro p hp hpk
      exact h.1 (by rw [hak, ← hpk]; exact List.mem_map_of_mem Prod.fst hp)
    · rw [List.eraseP_cons_of_neg (by simpa using hak)]
      intro p hp
      rcases List.mem_cons.mp hp with hpa | hpt
      · rw [hpa]; exact hak
      · exact ih h.2 p hpt

lemma not_key_of_contains_false (c : LRU K V) (k : K)
    (hc : c.contains k = false) :
    ∀ p ∈ c.items, p.1 ≠ k := by
  intro p hp
  have := List.any_eq_false.mp hc p hp
  simpa using this

lemma LRU.find_add_self (c : LRU K V) (k : K) (v : V) (hwf : c.WF) :
    (c.add k v).items.find? (fun p => decide (p.1 = k)) = some (k, v) := by
  obtain ⟨sz, items⟩ := c
  obtain ⟨hsz, hnd⟩ := hwf
  by_cases hc : LRU.contains ⟨sz, items⟩ k
  · simp only [LRU.add, hc, if_true]
    exact find_key_append_self _ _ _ (mem_eraseP_key_ne items k hnd)
  · have hc' : LRU.contains ⟨sz, items⟩ k = false := by simpa using hc
    have hno := not_key_of_contains_false _ k hc'
    simp only [LRU.add, hc', Bool.false_eq_true, if_false]
    by_cases hlen : sz < (items ++ [(k, v)]).length
    · rw [if_pos hlen]
      cases items with
      | nil =>
        exfalso
        have hsz2 : 0 < sz := hsz
        simp only [List.nil_append, List.length_cons, List.length_nil] at hlen
        omega
      | cons a t =>
        have htl : ((a :: t) ++ [(k, v)]).tail = t ++ [(k, v)] := rfl
        rw [htl]
        refine find_key_append_self _ _ _ (fun p hp => ?_)
        exact hno p (List.mem_cons_of_mem a hp)
    · rw [if_neg hlen]
      exact find_key_append_self _ _ _ hno

lemma LRU.get_add_self (c : LRU K V) (k : K) (v : V) (hwf : c.WF) :
    ((c.add k v).get k).1 = some v := by
  unfold LRU.get
  rw [LRU.find_add_self c k v hwf]

lemma LRU.peek_add_self (c : LRU K V) (k : K) (v : V) (hwf : c.WF) :
    (c.add k v).peek k = some v := by
  unfold LRU.peek
  rw [LRU.find_add_self c k v hwf]
  rfl

lemma LRU.get_none_of_no_key (c : LRU K V) (k : K)
    (h : ∀ p ∈ c.items, p.1 ≠ k) :
    (c.get k).1 = none ∧ (c.get k).2 = c := by
  unfold LRU.get
  have : c.items.find? (fun p => decide (p.1 = k)) = none := by
    rw [List.find?_eq_none]; intro x hx; simpa using h x hx
  rw [this]
  exact ⟨rfl, rfl⟩

lemma LRU.peek_none_of_no_key (c : LRU K V) (k : K)
    (h : ∀ p ∈ c.items, p.1 ≠ k) :
    c.peek k = none := by
  unfold LRU.peek
  have : c.items.find? (fun p => decide (p.1 = k)) = none := by
    rw [List.find?_eq_none]; intro x hx; simpa using h x hx
  rw [this]
  rfl

lemma LRU.WF_add (c : LRU K V) (k : K) (v : V) (hwf : c.WF) :
    (c.add k v).WF := by
  obtain ⟨sz, items⟩ := c
  obtain ⟨hsz, hnd⟩ := hwf
  by_cases hc : LRU.contains ⟨sz, items⟩ k
  · simp only [LRU.add, hc, if_true]
    refine ⟨hsz, ?_⟩
    simp only [List.map_append]
    rw [List.nodup_append]
    refine ⟨((items.eraseP_sublist).map Prod.fst).nodup hnd, List.nodup_singleton k, ?_⟩
    intro x hx hy
    simp only [List.map_cons, List.map_nil, List.mem_singleton] at hy
    obtain ⟨p, hp, hpx⟩ := List.mem_map.mp hx
    exact mem_eraseP_key_ne items k hnd p hp (by rw [hpx, hy])
  · have hc' : LRU.contains ⟨sz, items⟩ k = false := by simpa using hc
    have hno := not_key_of_contains_false _ k hc'
    have hnd2 : ((items ++ [(k, v)]).map Prod.fst).Nodup := by
      rw [List.map_append, List.nodup_append]
      refine ⟨hnd, List.nodup_singleton k, ?_⟩
      intro x hx hy
      simp only [List.map_cons, List.map_nil, List.mem_singleton] at hy
      obtain ⟨p, hp, hpx⟩ := List.mem_map.mp hx
      exact hno p hp (by rw [hpx, hy])
    simp only [LRU.add, hc', Bool.false_eq_true, if_false]
    refine ⟨hsz, ?_⟩
    by_cases hlen : sz < (items ++ [(k, v)]).length
    · rw [if_pos hlen]
      exact ((List.tail_sublist _).map Prod.fst).nodup hnd2
    · rw [if_neg hlen]
      exact hnd2

lemma LRU.WF_remove (c : LRU K V) (k : K) (hwf : c.WF) :
    (c.remove k).WF :=
  ⟨hwf.1, ((c.items.eraseP_sublist).map Prod.fst).nodup hwf.2⟩

lemma LRU.WF_removeOldest (c : LRU K V) (hwf : c.WF) :
    (c.removeOldest).1.WF :=
  ⟨hwf.1, ((List.tail_sublist c.items).map Prod.fst).nodup hwf.2⟩

end LRULemmas

/-! ## TwoQueueCache lemmas -/

section TwoQLemmas

variable {K V : Type} [DecidableEq K]

lemma TwoQueueCache.WF_ensureSpace (c : TwoQueueCache K V) (b : Bool) (hwf : c.WF) :
    (c.ensureSpace b).WF := by
  obtain ⟨hr, hf⟩ := hwf
  unfold TwoQueueCache.ensureSpace
  by_cases h1 : c.recent.len + c.frequent.len < c.size
  · rw [if_pos h1]; exact ⟨hr, hf⟩
  · rw [if_neg h1]
    by_cases h2 : 0 < c.recent.len ∧
        (c.recentSize < c.recent.len ∨ (c.recent.len = c.recentSize ∧ ¬b))
    · rw [if_pos h2]
      rcases hro : c.recent.removeOldest with ⟨r2, op⟩
      have hr2 : r2 = (c.recent.removeOldest).1 := by rw [hro]
      cases op with
      | some p => exact ⟨hr2 ▸ LRU.WF_removeOldest c.recent hr, hf⟩
      | none => exact ⟨hr2 ▸ LRU.WF_removeOldest c.recent hr, hf⟩
    · rw [if_neg h2]
      exact ⟨hr, LRU.WF_removeOldest c.frequent hf⟩

lemma TwoQueueCache.ensureSpace_frequent_subset (c : TwoQueueCache K V) (b : Bool) :
    ∀ p ∈ (c.ensureSpace b).frequent.items, p ∈ c.frequent.items := by
  unfold TwoQueueCache.ensureSpace
  by_cases h1 : c.recent.len + c.frequent.len < c.size
  · rw [if_pos h1]; exact fun p hp => hp
  · rw [if_neg h1]
    by_cases h2 : 0 < c.recent.len ∧
        (c.recentSize < c.recent.len ∨ (c.recent.len = c.recentSize ∧ ¬b))
    · rw [if_pos h2]
      rcases hro : c.recent.removeOldest with ⟨r2, op⟩
      cases op with
      | some p => exact fun p hp => hp
      | none => exact fun p hp => hp
    · rw [if_neg h2]
      exact fun p hp => (List.tail_sublist _).mem hp

lemma TwoQueueCache.WF_add_cache (c : TwoQueueCache K V) (k : K) (v : V) (hwf : c.WF) :
    (c.add k v).WF := by
  unfold TwoQueueCache.add
  by_cases h1 : c.frequent.contains k
  · rw [if_pos h1]
    exact ⟨hwf.1, LRU.WF_add _ k v hwf.2⟩
  · rw [if_neg h1]
    by_cases h2 : c.recent.contains k
    · rw [if_pos h2]
      exact ⟨LRU.WF_remove _ k hwf.1, LRU.WF_add _ k v hwf.2⟩
    · rw [if_neg h2]
      by_cases h3 : c.recentEvict.contains k
      · rw [if_pos h3]
        have hes := TwoQueueCache.WF_ensureSpace c true hwf
        exact ⟨hes.1, LRU.WF_add _ k v hes.2⟩
      · rw [if_neg h3]
        have hes := TwoQueueCache.WF_ensureSpace c false hwf
        exact ⟨LRU.WF_add _ k v hes.1, hes.2⟩

lemma TwoQueueCache.get_some_of_frequent (c : TwoQueueCache K V) (k : K) (v : V)
    (h : (c.frequent.get k).1 = some v) :
    (c.get k).1 = some v := by
  unfold TwoQueueCache.get
  rcases hg : c.frequent.get k with ⟨o, l2⟩
  rw [hg] at h
  simp only at h
  rw [h]

lemma TwoQueueCache.get_add_self_cache (c : TwoQueueCache K V) (k : K) (v : V) (hwf : c.WF) :
    ((c.add k v).get k).1 = some v := by
  unfold TwoQueueCache.add
  by_cases h1 : c.frequent.contains k
  · rw [if_pos h1]
    exact TwoQueueCache.get_some_of_frequent _ k v (LRU.get_add_self _ k v hwf.2)
  · rw [if_neg h1]
    by_cases h2 : c.recent.contains k
    · rw [if_pos h2]
      exact TwoQueueCache.get_some_of_frequent _ k v (LRU.get_add_self _ k v hwf.2)
    · rw [if_neg h2]
      by_cases h3 : c.recentEvict.contains k
      · rw [if_pos h3]
        have hes := TwoQueueCache.WF_ensureSpace c true hwf
        exact TwoQueueCache.get_some_of_frequent _ k v (LRU.get_add_self _ k v hes.2)
      · rw [if_neg h3]
        have hes := TwoQueueCache.WF_ensureSpace c false hwf
        have h1' : c.frequent.contains k = false := by simpa using h1
        have hnok : ∀ p ∈ (c.ensureSpace false).frequent.items, p.1 ≠ k := fun p hp =>
          not_key_of_contains_false c.frequent k h1' p
            (TwoQueueCache.ensureSpace_frequent_subset c false p hp)
        unfold TwoQueueCache.get
        rcases hg : (c.ensureSpace false).frequent.get k with ⟨o, l2⟩
        have ho : o = none := by
          have := (LRU.get_none_of_no_key (c.ensureSpace false).frequent k hnok).1
          rw [hg] at this
          exact this
        rw [ho]
        have hpk := LRU.peek_add_self (c.ensureSpace false).recent k v hes.1
        rw [hpk]
end TwoQLemmas

/-! ## Digest length and handle key lemmas -/

lemma toBytesBE_length (n : Nat) : ∀ x : Nat, (toBytesBE n x).length = n := by
  induction n with
  | zero => intro x; rfl
  | succ n ih => intro x; simp [toBytesBE, ih]

lemma sha256Rounds_length (ks : List Nat) :
    ∀ (ws : List Nat) (a b c d e f g h : Nat),
      (sha256Rounds ks ws a b c d e f g h).length = 8 := by
  induction ks with
  | nil => intro ws a b c d e f g h; cases ws <;> rfl
  | cons k ks ih =>
    intro ws a b c d e f g h
    cases ws with
    | nil => rfl
    | cons w ws => simpa [sha256Rounds] using ih ws _ _ _ _ _ _ _ _

lemma exists_eight {α : Type} (l : List α) (hl : l.length = 8) :
    ∃ a b c d e f g k, l = [a, b, c, d, e, f, g, k] := by
  obtain ⟨a, l1, rfl⟩ := List.exists_of_length_succ l (show l.length = 7 + 1 by omega)
  simp only [List.length_cons] at hl
  obtain ⟨b, l2, rfl⟩ := List.exists_of_length_succ l1 (show l1.length = 6 + 1 by omega)
  simp only [List.length_cons] at hl
  obtain ⟨c, l3, rfl⟩ := List.exists_of_length_succ l2 (show l2.length = 5 + 1 by omega)
  simp only [List.length_cons] at hl
  obtain ⟨d, l4, rfl⟩ := List.exists_of_length_succ l3 (show l3.length = 4 + 1 by omega)
  simp only [List.length_cons] at hl
  obtain ⟨e, l5, rfl⟩ := List.exists_of_length_succ l4 (show l4.length = 3 + 1 by omega)
  simp only [List.length_cons] at hl
  obtain ⟨f, l6, rfl⟩ := List.exists_of_length_succ l5 (show l5.length = 2 + 1 by omega)
  simp only [List.length_cons] at hl
  obtain ⟨g, l7, rfl⟩ := List.exists_of_length_succ l6 (show l6.length = 1 + 1 by omega)
  simp only [List.length_cons] at hl
  obtain ⟨k, l8, rfl⟩ := List.exists_of_length_succ l7 (show l7.length = 0 + 1 by omega)
  simp only [List.length_cons] at hl
  have : l8 = [] := List.length_eq_zero.mp (by omega)
  exact ⟨a, b, c, d, e, f, g, k, by rw [this]⟩

lemma sha256Block_length (st block : List Nat) (hst : st.length = 8) :
    (sha256Block st block).length = 8 := by
  obtain ⟨a, b, c, d, e, f, g, k, rfl⟩ := exists_eight st hst
  have hr := sha256Rounds_length K256 (extendW (bytesToWords block)) a b c d e f g k
  obtain ⟨a2, b2, c2, d2, e2, f2, g2, k2, hre⟩ :=
    exists_eight (sha256Rounds K256 (extendW (bytesToWords block)) a b c d e f g k) hr
  simp only [sha256Block]
  rw [hre]
  rfl

lemma foldl_sha256Block_length (blocks : List (List Nat)) :
    ∀ st : List Nat, st.length = 8 → (blocks.foldl sha256Block st).length = 8 := by
  induction blocks with
  | nil => intro st h; exact h
  | cons b bs ih => intro st h; exact ih _ (sha256Block_length _ _ h)

lemma concat4_length (ws : List Nat) :
    ((ws.map (toBytesBE 4)).foldr (fun a b => a ++ b) []).length = 4 * ws.length := by
  induction ws with
  | nil => rfl
  | cons w ws ih =>
    simp only [List.map_cons, List.foldr_cons, List.length_append, toBytesBE_length, ih,
      List.length_cons]
    ring

lemma sha256Bytes_length (msg : List Nat) : (sha256Bytes msg).length = 32 := by
  unfold sha256Bytes
  rw [concat4_length, foldl_sha256Block_length _ H256 rfl]

lemma keyOfBytes_of_length32 (l : List Nat) (h : l.length = 32) : keyOfBytes l = l := by
  unfold keyOfBytes
  rw [List.take_append_of_le_length (by omega), ← h, List.take_length]

lemma ToHandle_fst (s : Server) (p : List (List Nat)) : (s.ToHandle p).1 = handleOf p := rfl

lemma handleOf_length (p : List (List Nat)) : (handleOf p).length = 32 :=
  sha256Bytes_length _

lemma pathKey_eq_handleOf (p : List (List Nat)) : pathKey p = handleOf p :=
  keyOfBytes_of_length32 _ (handleOf_length p)

/-! ## More cache access lemmas -/

section TwoQAccess

variable {K V : Type} [DecidableEq K]

lemma TwoQueueCache.get_none_of_no_key_cache (c : TwoQueueCache K V) (k : K)
    (h1 : ∀ p ∈ c.frequent.items, p.1 ≠ k) (h2 : ∀ p ∈ c.recent.items, p.1 ≠ k) :
    (c.get k).1 = none := by
  unfold TwoQueueCache.get
  rcases hg : c.frequent.get k with ⟨o, l2⟩
  have ho : o = none := by
    have := (LRU.get_none_of_no_key c.frequent k h1).1
    rw [hg] at this
    exact this
  rw [ho, LRU.peek_none_of_no_key c.recent k h2]

lemma TwoQueueCache.get_none_of_contains_false (c : TwoQueueCache K V) (k : K)
    (h : c.contains k = false) :
    (c.get k).1 = none := by
  unfold TwoQueueCache.contains at h
  rw [Bool.or_eq_false_iff] at h
  exact TwoQueueCache.get_none_of_no_key_cache c k
    (not_key_of_contains_false c.frequent k h.1)
    (not_key_of_contains_false c.recent k h.2)

lemma TwoQueueCache.get_some_of_recent_find (c : TwoQueueCache K V) (k : K) (v : V)
    (hf : c.frequent.items = [])
    (hr : c.recent.items.find? (fun p => decide (p.1 = k)) = some (k, v)) :
    (c.get k).1 = some v := by
  unfold TwoQueueCache.get
  rcases hg : c.frequent.get k with ⟨o, l2⟩
  have ho : o = none := by
    have := (LRU.get_none_of_no_key c.frequent k (by rw [hf]; intro p hp; simp at hp)).1
    rw [hg] at this
    exact this
  rw [ho]
  unfold LRU.peek
  rw [hr]
  rfl

end TwoQAccess

/-! ## Server-level helper lemmas -/

lemma FromHandle_of_get_some (s : Server) (fh : List Nat) (path : List (List Nat))
    (h : (s.pathForHandle.get (keyOfBytes fh)).1 = some path) :
    (s.FromHandle fh).1 = Except.ok path := by
  unfold Server.FromHandle
  rcases hg : s.pathForHandle.get (keyOfBytes fh) with ⟨o, c2⟩
  rw [hg] at h
  simp only at h
  rw [h]

lemma FromHandle_of_get_none (s : Server) (fh : List Nat)
    (h : (s.pathForHandle.get (keyOfBytes fh)).1 = none) :
    (s.FromHandle fh).1 = Except.error "handle unknown or expired" := by
  unfold Server.FromHandle
  rcases hg : s.pathForHandle.get (keyOfBytes fh) with ⟨o, c2⟩
  rw [hg] at h
  simp only at h
  rw [h]

lemma DataForVerifier_fst (s : Server) (path : List Nat) (verifier : Nat) :
    (s.DataForVerifier path verifier).1
      = (s.contentsForVerifier.get (VerifierPathPair.mk verifier path)).1 := by
  unfold Server.DataForVerifier
  rcases hg : s.contentsForVerifier.get (VerifierPathPair.mk verifier path) with ⟨o, c2⟩
  cases o <;> rfl

lemma Server.WF_ToHandle (s : Server) (path : List (List Nat)) (hwf : s.WF) :
    ((s.ToHandle path).2).WF :=
  ⟨TwoQueueCache.WF_add_cache _ _ _ hwf.1, hwf.2⟩

lemma FromHandle_after_ToHandle (s : Server) (path : List (List Nat)) (hwf : s.WF) :
    ((s.ToHandle path).2.FromHandle ((s.ToHandle path).1)).1 = Except.ok path := by
  apply FromHandle_of_get_some
  exact TwoQueueCache.get_add_self_cache s.pathForHandle _ path hwf.1

/-! ## Claims C1 and C3 through C10 -/

/-- C1: for every path component sequence P, immediately after calling
ToHandle(P), calling FromHandle on the returned handle succeeds and returns
exactly P (and no error). -/
theorem nfsv3_c1 (s : Server) (path : List (List Nat)) (hwf : s.WF) :
    ((s.ToHandle path).2.FromHandle ((s.ToHandle path).1)).1 = Except.ok path :=
  FromHandle_after_ToHandle s path hwf

/-- Witness for C1 at the fresh server and the path `["a"]`. -/
theorem nfsv3_c1_witness :
    ((newServer.ToHandle [[97]]).2.FromHandle ((newServer.ToHandle [[97]]).1)).1
      = Except.ok [[97]] :=
  nfsv3_c1 newServer [[97]] (by decide)

/-- C3 as amended: on a stat failure VerifierFor returns exactly zero and
leaves the server unchanged; the subsequent DataForVerifier(path, 0)
returns the absent indication provided nothing is cached under
(verifier 0, path). -/
theorem nfsv3_c3 (env : VfsEnv) (s : Server) (path : List Nat) (contents : List FileInfo)
    (hstat : env.stat path = none) :
    Server.VerifierFor env s path contents = (0, s) ∧
    (s.contentsForVerifier.contains (VerifierPathPair.mk 0 path) = false →
      (s.DataForVerifier path 0).1 = none) := by
  constructor
  · unfold Server.VerifierFor
    rw [hstat]
  · intro hc
    rw [DataForVerifier_fst]
    exact TwoQueueCache.get_none_of_contains_false _ _ hc

/-- Witness for C3 at the fresh server and an always-failing stat. -/
theorem nfsv3_c3_witness :
    Server.VerifierFor ⟨fun _ => none, 0, 0, 0⟩ newServer [47] [] = (0, newServer) ∧
    (newServer.DataForVerifier [47] 0).1 = none := by
  have h := nfsv3_c3 ⟨fun _ => none, 0, 0, 0⟩ newServer [47] [] rfl
  exact ⟨h.1, h.2 (by decide)⟩

/-- Counterexample to C3 as stated: if a successful stat previously cached a
snapshot under verifier 0 (modification time exactly the Unix epoch), then
after a failing-stat VerifierFor — which does return 0 and inserts nothing —
DataForVerifier(path, 0) returns that stale snapshot, not the absent
indication. -/
theorem nfsv3_c3_cex :
    (Server.VerifierFor ⟨fun _ => none, 0, 0, 0⟩
        (Server.VerifierFor ⟨fun _ => some ⟨[100], 0⟩, 0, 0, 0⟩ newServer [100]
          [⟨[97], 0⟩]).2 [100] []) =
      (0, (Server.VerifierFor ⟨fun _ => some ⟨[100], 0⟩, 0, 0, 0⟩ newServer [100]
          [⟨[97], 0⟩]).2) ∧
    ((Server.VerifierFor ⟨fun _ => some ⟨[100], 0⟩, 0, 0, 0⟩ newServer [100]
        [⟨[97], 0⟩]).2.DataForVerifier [100] 0).1 = some [⟨[97], 0⟩] ∧
    ((Server.VerifierFor ⟨fun _ => some ⟨[100], 0⟩, 0, 0, 0⟩ newServer [100]
        [⟨[97], 0⟩]).2.DataForVerifier [100] 0).1 ≠ none := by
  refine ⟨rfl, by decide, by decide⟩

/-- C4: if VerifierFor succeeds (the stat succeeds) and returns v, then an
immediately following DataForVerifier(path, v) returns the stored snapshot.
DataForVerifier consults only the cache — it takes no filesystem
environment — so the returned snapshot is unaffected by any later
modification of the live directory. -/
theorem nfsv3_c4 (env : VfsEnv) (s : Server) (path : List Nat) (contents : List FileInfo)
    (node : FileInfo) (hwf : s.WF) (hstat : env.stat path = some node) :
    ((Server.VerifierFor env s path contents).2.DataForVerifier path
        (Server.VerifierFor env s path contents).1).1 = some contents := by
  unfold Server.VerifierFor
  rw [hstat]
  simp only
  rw [DataForVerifier_fst]
  exact TwoQueueCache.get_add_self_cache _ _ contents hwf.2

/-- Witness for C4 at the fresh server and a directory statting with a
nonzero modification time. -/
theorem nfsv3_c4_witness :
    ((Server.VerifierFor ⟨fun _ => some ⟨[100], 123⟩, 0, 0, 0⟩ newServer [47]
        [⟨[97], 5⟩]).2.DataForVerifier [47]
        (Server.VerifierFor ⟨fun _ => some ⟨[100], 123⟩, 0, 0, 0⟩ newServer [47]
          [⟨[97], 5⟩]).1).1 = some [⟨[97], 5⟩] :=
  nfsv3_c4 ⟨fun _ => some ⟨[100], 123⟩, 0, 0, 0⟩ newServer [47] [⟨[97], 5⟩] ⟨[100], 123⟩
    (by decide) rfl

/-- C5 as amended: for a successfully-stated path the verifier is nonzero
whenever the modification time in microseconds is not divisible by 2^64
(in particular whenever it is not exactly the Unix epoch); zero is returned
on stat failure, and also for a successful stat whose modification time in
microseconds is divisible by 2^64. -/
theorem nfsv3_c5 (env : VfsEnv) (s : Server) (path : List Nat) (contents : List FileInfo) :
    (∀ node : FileInfo, env.stat path = some node →
      node.modTimeMicro % (18446744073709551616 : Int) ≠ 0 →
      (Server.VerifierFor env s path contents).1 ≠ 0) ∧
    (env.stat path = none → (Server.VerifierFor env s path contents).1 = 0) := by
  constructor
  · intro node hstat hmod
    unfold Server.VerifierFor
    rw [hstat]
    simp only
    unfold u64ofInt
    intro h
    apply hmod
    have hnn : 0 ≤ node.modTimeMicro % (18446744073709551616 : Int) :=
      Int.emod_nonneg _ (by norm_num)
    omega
  · intro hstat
    unfold Server.VerifierFor
    rw [hstat]

/-- Witness for C5: a nonzero modification time yields a nonzero verifier
and a failing stat yields the zero sentinel. -/
theorem nfsv3_c5_witness :
    (Server.VerifierFor ⟨fun _ => some ⟨[100], 123⟩, 0, 0, 0⟩ newServer [47] []).1 ≠ 0 ∧
    (Server.VerifierFor ⟨fun _ => none, 0, 0, 0⟩ newServer [47] []).1 = 0 :=
  ⟨(nfsv3_c5 ⟨fun _ => some ⟨[100], 123⟩, 0, 0, 0⟩ newServer [47] []).1 ⟨[100], 123⟩ rfl
      (by decide),
   (nfsv3_c5 ⟨fun _ => none, 0, 0, 0⟩ newServer [47] []).2 rfl⟩

/-- Counterexample to C5 as stated: a path whose stat succeeds with
modification time exactly the Unix epoch (UnixMicro = 0) gets verifier 0
from VerifierFor, so zero is not returned only on stat failure. -/
theorem nfsv3_c5_cex :
    (⟨fun _ => some ⟨[100], 0⟩, 0, 0, 0⟩ : VfsEnv).stat [47] = some ⟨[100], 0⟩ ∧
    (Server.VerifierFor ⟨fun _ => some ⟨[100], 0⟩, 0, 0, 0⟩ newServer [47] []).1 = 0 :=
  ⟨rfl, rfl⟩

/-- C6: ToHandle is deterministic — the returned handle does not depend on
the server state, only on the path — and the handle is the 32-byte SHA-256
digest of the concatenation of the path's components. -/
theorem nfsv3_c6 (s1 s2 : Server) (path : List (List Nat)) :
    (s1.ToHandle path).1 = (s2.ToHandle path).1 ∧
    (s1.ToHandle path).1 = sha256Bytes (concatComponents path) ∧
    ((s1.ToHandle path).1).length = 32 :=
  ⟨rfl, rfl, sha256Bytes_length _⟩

/-- C7: every unsupported capability operation — Lock, Unlock, Symlink,
Readlink, Lstat, Chroot, MkdirAll, TempFile — returns the fixed
billy.ErrNotSupported, for all arguments, without consulting the VFS. -/
theorem nfsv3_c7 (f : BillyFile) (fs : BillyFs) (filename target link dir pre : List Nat)
    (perm : Nat) :
    f.Lock = Except.error BillyError.ErrNotSupported ∧
    f.Unlock = Except.error BillyError.ErrNotSupported ∧
    fs.Symlink target link = Except.error BillyError.ErrNotSupported ∧
    fs.Readlink link = Except.error BillyError.ErrNotSupported ∧
    fs.Lstat filename = Except.error BillyError.ErrNotSupported ∧
    fs.Chroot filename = Except.error BillyError.ErrNotSupported ∧
    fs.MkdirAll filename perm = Except.error BillyError.ErrNotSupported ∧
    fs.TempFile dir pre = Except.error BillyError.ErrNotSupported :=
  ⟨rfl, rfl, rfl, rfl, rfl, rfl, rfl, rfl⟩

/-- C8: FSStat always succeeds (nil error) and fills the response from the
space-usage query: TotalSize and FreeSize are the (converted-to-uint64)
total and free byte counts, AvailableSize equals FreeSize, TotalFiles is 0
and FreeFiles = AvailableFiles = the maximum uint64 value; in particular a
filesystem with 1000 bytes total and 600 free yields TotalSize=1000,
FreeSize=600, AvailableSize=600, TotalFiles=0, FreeFiles=max-uint64. -/
theorem nfsv3_c8 (env : VfsEnv) (s : Server) (prev : NfsFSStat) :
    Server.FSStat env s prev =
      ({ TotalSize := u64ofInt env.statfsTotal
         FreeSize := u64ofInt env.statfsFree
         AvailableSize := u64ofInt env.statfsFree
         TotalFiles := 0
         FreeFiles := 18446744073709551615
         AvailableFiles := 18446744073709551615 }, none) ∧
    (Server.FSStat ⟨fun _ => none, 1000, 400, 600⟩ s prev).1 =
      ⟨1000, 600, 600, 0, 18446744073709551615, 18446744073709551615⟩ :=
  ⟨rfl, rfl⟩

/-- C9: path component sequences with byte-equal concatenations collide:
ToHandle returns the same handle for both, and after registering P then Q,
FromHandle on the shared handle returns Q — not P when P and Q differ. -/
theorem nfsv3_c9 (s : Server) (P Q : List (List Nat)) (hwf : s.WF)
    (hconcat : concatComponents P = concatComponents Q) :
    (s.ToHandle P).1 = (s.ToHandle Q).1 ∧
    (((s.ToHandle P).2.ToHandle Q).2.FromHandle (((s.ToHandle P).2.ToHandle Q).1)).1
      = Except.ok Q ∧
    (P ≠ Q →
      (((s.ToHandle P).2.ToHandle Q).2.FromHandle (((s.ToHandle P).2.ToHandle Q).1)).1
        ≠ Except.ok P) := by
  have h1 : (s.ToHandle P).1 = (s.ToHandle Q).1 := by
    show sha256Bytes (concatComponents P) = sha256Bytes (concatComponents Q)
    rw [hconcat]
  have h2 := FromHandle_after_ToHandle ((s.ToHandle P).2) Q (Server.WF_ToHandle s P hwf)
  refine ⟨h1, h2, fun hne hcontra => hne ?_⟩
  rw [h2] at hcontra
  exact (by simpa using hcontra.symm)

/-- Witness for C9 at P = ["ab","c"] and Q = ["a","bc"]. -/
theorem nfsv3_c9_witness :
    (newServer.ToHandle [[97, 98], [99]]).1 = (newServer.ToHandle [[97], [98, 99]]).1 ∧
    (((newServer.ToHandle [[97, 98], [99]]).2.ToHandle [[97], [98, 99]]).2.FromHandle
        (((newServer.ToHandle [[97, 98], [99]]).2.ToHandle [[97], [98, 99]]).1)).1
      = Except.ok [[97], [98, 99]] ∧
    ([[97, 98], [99]] : List (List Nat)) ≠ [[97], [98, 99]] ∧
    (((newServer.ToHandle [[97, 98], [99]]).2.ToHandle [[97], [98, 99]]).2.FromHandle
        (((newServer.ToHandle [[97, 98], [99]]).2.ToHandle [[97], [98, 99]]).1)).1
      ≠ Except.ok [[97, 98], [99]] := by
  have h := nfsv3_c9 newServer [[97, 98], [99]] [[97], [98, 99]] (by decide) rfl
  exact ⟨h.1, h.2.1, by decide, h.2.2 (by decide)⟩

/-- C10: FromHandle keys its lookup on exactly the first 32 bytes of its
argument, zero-padded on the right for shorter inputs: any two handle byte
strings whose zero-padded 32-byte prefixes agree (for instance a 32-byte
handle and any longer extension of it) give identical FromHandle results. -/
theorem nfsv3_c10 (s : Server) (fh1 fh2 : List Nat)
    (h : List.take 32 (fh1 ++ List.replicate 32 0)
        = List.take 32 (fh2 ++ List.replicate 32 0)) :
    s.FromHandle fh1 = s.FromHandle fh2 := by
  unfold Server.FromHandle
  have hk : keyOfBytes fh1 = keyOfBytes fh2 := h
  rw [hk]

/-- Witness for C10: a 32-byte handle and a longer extension of it resolve
identically. -/
theorem nfsv3_c10_witness :
    newServer.FromHandle (List.replicate 32 7)
      = newServer.FromHandle (List.replicate 32 7 ++ [9]) :=
  nfsv3_c10 newServer (List.replicate 32 7) (List.replicate 32 7 ++ [9]) (by decide)

/-! ## The capacity-overflow analysis for C2 -/

section C2Support

variable {K V : Type} [DecidableEq K]

lemma LRU.mem_add (c : LRU K V) (k : K) (v : V) (p : K × V)
    (hp : p ∈ (c.add k v).items) : p ∈ c.items ∨ p = (k, v) := by
  unfold LRU.add at hp
  by_cases hc : c.contains k
  · simp only [hc, if_true] at hp
    rcases List.mem_append.mp hp with h | h
    · exact Or.inl ((c.items.eraseP_sublist).subset h)
    · simp only [List.mem_singleton] at h
      exact Or.inr h
  · have hc' : c.contains k = false := by simpa using hc
    simp only [hc', Bool.false_eq_true, if_false] at hp
    by_cases hl : c.size < (c.items ++ [(k, v)]).length
    · rw [if_pos hl] at hp
      rcases List.mem_append.mp ((List.tail_sublist _).subset hp) with h | h
      · exact Or.inl h
      · simp only [List.mem_singleton] at h
        exact Or.inr h
    · rw [if_neg hl] at hp
      rcases List.mem_append.mp hp with h | h
      · exact Or.inl h
      · simp only [List.mem_singleton] at h
        exact Or.inr h

lemma LRU.contains_true_exists (c : LRU K V) (k : K)
    (h : c.contains k = true) : ∃ p ∈ c.items, p.1 = k := by
  unfold LRU.contains at h
  obtain ⟨p, hp, hd⟩ := List.any_eq_true.mp h
  exact ⟨p, hp, of_decide_eq_true hd⟩

end C2Support

lemma registerAll_append (s : Server) (qs : List (List (List Nat))) (p : List (List Nat)) :
    registerAll s (qs ++ [p]) = ((registerAll s qs).ToHandle p).2 := by
  unfold registerAll
  rw [List.foldl_append]
  rfl

lemma find_key_in_mapped (qs : List (List (List Nat))) (p : List (List Nat))
    (hnd : (qs.map pathKey).Nodup) (hp : p ∈ qs) :
    (qs.map (fun q => (pathKey q, q))).find? (fun e => decide (e.1 = pathKey p))
      = some (pathKey p, p) := by
  induction qs with
  | nil => simp at hp
  | cons q qs ih =>
    simp only [List.map_cons, List.nodup_cons] at hnd
    rcases List.mem_cons.mp hp with rfl | hmem
    · simp [List.find?_cons]
    · have hne : pathKey q ≠ pathKey p := by
        intro heq
        exact hnd.1 (heq ▸ List.mem_map_of_mem pathKey hmem)
      rw [List.map_cons, List.find?_cons]
      rw [show (decide ((pathKey q, q).1 = pathKey p)) = false from decide_eq_false hne]
      exact ih hnd.2 hmem

set_option maxHeartbeats 2000000 in
lemma registerAll_cache (qs : List (List (List Nat))) (hnd : (qs.map pathKey).Nodup) :
    (registerAll newServer qs).pathForHandle.frequent.items = [] ∧
    (registerAll newServer qs).pathForHandle.recent.items
      = (qs.drop (qs.length - 1024)).map (fun q => (pathKey q, q)) ∧
    (∀ k, (registerAll newServer qs).pathForHandle.recentEvict.contains k = true →
      k ∈ qs.map pathKey) ∧
    (registerAll newServer qs).pathForHandle.size = 1024 ∧
    (registerAll newServer qs).pathForHandle.recentSize = 256 ∧
    (registerAll newServer qs).pathForHandle.recent.size = 1024 ∧
    (registerAll newServer qs).pathForHandle.frequent.size = 1024 := by
  induction qs using List.reverseRecOn with
  | nil =>
    refine ⟨rfl, rfl, ?_, rfl, rfl, rfl, rfl⟩
    intro k h
    simp [registerAll, newServer, New2Q, LRU.contains] at h
  | append_singleton qs p ih =>
    rw [List.map_append] at hnd
    obtain ⟨h1, _, hdisj⟩ := List.nodup_append.mp hnd
    have hkp : pathKey p ∉ qs.map pathKey := fun hmem => hdisj hmem (by simp)
    obtain ⟨hfreq, hrec, hghost, hsz, hrsz, hrs, hfs⟩ := ih h1
    rw [registerAll_append]
    have hstep : ((registerAll newServer qs).ToHandle p).2.pathForHandle
        = (registerAll newServer qs).pathForHandle.add (pathKey p) p := rfl
    rw [hstep]
    simp only [List.length_append, List.length_singleton]
    set C := (registerAll newServer qs).pathForHandle with hC
    have hcf : C.frequent.contains (pathKey p) = false := by
      unfold LRU.contains
      rw [hfreq]
      rfl
    have hcr : C.recent.contains (pathKey p) = false := by
      unfold LRU.contains
      rw [hrec, List.any_eq_false]
      intro e he
      obtain ⟨q, hq, rfl⟩ := List.mem_map.mp he
      simp only [decide_eq_true_eq]
      intro heq
      exact hkp (heq ▸ List.mem_map_of_mem pathKey (List.drop_subset _ _ hq))
    have hcg : C.recentEvict.contains (pathKey p) = false := by
      cases hg : C.recentEvict.contains (pathKey p) with
      | false => rfl
      | true => exact absurd (hghost _ hg) hkp
    have hbranch : C.add (pathKey p) p
        = TwoQueueCache.mk (C.ensureSpace false).size (C.ensureSpace false).recentSize
            ((C.ensureSpace false).recent.add (pathKey p) p) (C.ensureSpace false).frequent
            (C.ensureSpace false).recentEvict := by
      unfold TwoQueueCache.add
      rw [hcf, hcr, hcg]
      simp only [Bool.false_eq_true, if_false]
    have hlr : C.recent.len = (qs.drop (qs.length - 1024)).length := by
      unfold LRU.len
      rw [hrec, List.length_map]
    have hlf : C.frequent.len = 0 := by
      unfold LRU.len
      rw [hfreq]
      rfl
    by_cases hL : qs.length < 1024
    · -- below capacity: no eviction
      have hcond : C.recent.len + C.frequent.len < C.size := by
        rw [hlr, hlf, hsz, List.length_drop]
        omega
      have hes : C.ensureSpace false = C := by
        unfold TwoQueueCache.ensureSpace
        rw [if_pos hcond]
      have hadd : C.recent.add (pathKey p) p
          = LRU.mk 1024
              (((qs ++ [p]).drop (qs.length + 1 - 1024)).map (fun q => (pathKey q, q))) := by
        have hltA : ¬ (1024 < (((qs.drop (qs.length - 1024)).map (fun q => (pathKey q, q)))
            ++ [(pathKey p, p)]).length) := by
          rw [List.length_append, List.length_map, List.length_drop]
          simp only [List.length_cons, List.length_nil]
          omega
        unfold LRU.add
        rw [hcr]
        simp only [Bool.false_eq_true, if_false]
        rw [hrs, hrec, if_neg hltA]
        have h0 : qs.length - 1024 = 0 := by omega
        have h1 : qs.length + 1 - 1024 = 0 := by omega
        rw [h0, h1, List.drop_zero, List.drop_zero, List.map_append]
        rfl
      rw [hbranch, hes, hadd]
      refine ⟨hfreq, rfl, ?_, hsz, hrsz, rfl, hfs⟩
      intro k hk
      rw [List.map_append]
      exact List.mem_append_left _ (hghost k hk)
    · -- at capacity: the oldest recent entry is evicted to the ghost queue
      have hDlen : (qs.drop (qs.length - 1024)).length = 1024 := by
        rw [List.length_drop]
        omega
      obtain ⟨d0, D2, hD⟩ := List.exists_of_length_succ (qs.drop (qs.length - 1024))
        (show (qs.drop (qs.length - 1024)).length = 1023 + 1 by omega)
      have hD2 : D2 = qs.drop (qs.length - 1023) := by
        have := congrArg List.tail hD
        simp only [List.tail_cons] at this
        rw [List.tail_drop] at this
        rw [← this]
        congr 1
        omega
      have hd0mem : d0 ∈ qs := List.drop_subset _ _ (hD ▸ List.mem_cons_self d0 D2)
      have hrecEq : C.recent
          = LRU.mk 1024 (((d0 :: D2).map (fun q => (pathKey q, q)))) := by
        rw [← hrs, ← hD, ← hrec]
      have hcond1 : ¬ (C.recent.len + C.frequent.len < C.size) := by
        rw [hlr, hlf, hsz, hDlen]
        omega
      have hcond2 : 0 < C.recent.len ∧
          (C.recentSize < C.recent.len ∨ (C.recent.len = C.recentSize ∧ ¬(false : Bool))) := by
        constructor
        · rw [hlr, hDlen]
          omega
        · left
          rw [hrsz, hlr, hDlen]
          omega
      have hro : C.recent.removeOldest
          = (LRU.mk 1024 (D2.map (fun q => (pathKey q, q))), some (pathKey d0, d0)) := by
        unfold LRU.removeOldest
        rw [hrecEq]
        rfl
      have hes : C.ensureSpace false
          = TwoQueueCache.mk C.size C.recentSize
              (LRU.mk 1024 (D2.map (fun q => (pathKey q, q))))
              C.frequent (C.recentEvict.add (pathKey d0) ()) := by
        unfold TwoQueueCache.ensureSpace
        rw [if_neg hcond1, if_pos hcond2, hro]
      have hadd : (LRU.mk 1024 (D2.map (fun q => (pathKey q, q))) : LRU (List Nat) _).add
            (pathKey p) p
          = LRU.mk 1024
              (((qs ++ [p]).drop (qs.length + 1 - 1024)).map (fun q => (pathKey q, q))) := by
        have hcont2 : (LRU.mk 1024 (D2.map (fun q => (pathKey q, q))) : LRU (List Nat)
            (List (List Nat))).contains (pathKey p) = false := by
          unfold LRU.contains
          rw [List.any_eq_false]
          intro e he
          obtain ⟨q, hq, rfl⟩ := List.mem_map.mp he
          simp only [decide_eq_true_eq]
          intro heq
          have hqmem : q ∈ qs := by
            rw [hD2] at hq
            exact List.drop_subset _ _ hq
          exact hkp (heq ▸ List.mem_map_of_mem pathKey hqmem)
        have hD2len : D2.length = 1023 := by
          have := congrArg List.length hD
          simp only [List.length_cons] at this
          omega
        have hltB : ¬ ((1024 : Nat) < ((D2.map (fun q => (pathKey q, q)))
            ++ [(pathKey p, p)]).length) := by
          rw [List.length_append, List.length_map]
          simp only [List.length_cons, List.length_nil, hD2len]
          omega
        unfold LRU.add
        rw [hcont2]
        simp only [Bool.false_eq_true, if_false]
        rw [if_neg hltB, hD2]
        have h1 : qs.length + 1 - 1024 = qs.length - 1023 := by omega
        rw [h1, List.drop_append_of_le_length (by omega), List.map_append]
        rfl
      rw [hbranch, hes, hadd]
      refine ⟨hfreq, rfl, ?_, hsz, hrsz, rfl, hfs⟩
      intro k hk
      rw [List.map_append]
      obtain ⟨e, he, hek⟩ := LRU.contains_true_exists _ k hk
      rcases LRU.mem_add _ _ _ e he with hin | heq
      · have hold : C.recentEvict.contains k = true := by
          unfold LRU.contains
          rw [List.any_eq_true]
          exact ⟨e, hin, by simp [hek]⟩
        exact List.mem_append_left _ (hghost k hold)
      · apply List.mem_append_left
        rw [← hek, heq]
        exact List.mem_map_of_mem pathKey hd0mem

/-- C2: once strictly more distinct handles than the registry's capacity
(1024) have been registered via ToHandle, the first (least recently
touched) handle no longer resolves — FromHandle reports "handle unknown or
expired" — while the 1024 most recently registered paths all still resolve.
The hypothesis asks the registered handle keys to be pairwise distinct,
which for the scenario's concrete paths is checked in the witness; the
spec itself notes a hash collision can make a handle refer to another
path. -/
theorem nfsv3_c2 (p0 : List (List Nat)) (ps : List (List (List Nat)))
    (hnd : ((p0 :: ps).map pathKey).Nodup) (hlen : 1024 ≤ ps.length) :
    ((registerAll newServer (p0 :: ps)).FromHandle (handleOf p0)).1
        = Except.error "handle unknown or expired" ∧
    ∀ p ∈ ps.drop (ps.length - 1024),
      ((registerAll newServer (p0 :: ps)).FromHandle (handleOf p)).1 = Except.ok p := by
  obtain ⟨hfreq, hrec, hghost, hsz, hrsz, hrs, hfs⟩ := registerAll_cache (p0 :: ps) hnd
  have hlen2 : (p0 :: ps).length - 1024 = (ps.length - 1024) + 1 := by
    simp only [List.length_cons]
    omega
  rw [hlen2, List.drop_succ_cons] at hrec
  constructor
  · apply FromHandle_of_get_none
    apply TwoQueueCache.get_none_of_no_key_cache
    · rw [hfreq]
      intro p hp
      simp at hp
    · rw [hrec]
      intro e he
      obtain ⟨q, hq, rfl⟩ := List.mem_map.mp he
      show pathKey q ≠ pathKey p0
      simp only [List.map_cons, List.nodup_cons] at hnd
      intro heq
      exact hnd.1 (heq ▸ List.mem_map_of_mem pathKey (List.drop_subset _ _ hq))
  · intro p hp
    apply FromHandle_of_get_some
    have hfind := find_key_in_mapped (ps.drop (ps.length - 1024)) p ?_ hp
    · have := TwoQueueCache.get_some_of_recent_find
        (registerAll newServer (p0 :: ps)).pathForHandle (pathKey p) p hfreq
        (by rw [hrec]; exact hfind)
      exact this
    · have hsub : List.Sublist ((ps.drop (ps.length - 1024)).map pathKey)
          ((p0 :: ps).map pathKey) :=
        ((List.drop_sublist _ _).trans (List.sublist_cons_self p0 ps)).map pathKey
      exact hsub.nodup hnd

/-! ## The C2 witness: the scenario paths have pairwise distinct handle keys -/

set_option maxHeartbeats 2000000 in
lemma c2mapChunk00 : c2PathsChunk00.map (fun p => enc8 (pathKey p)) = c2KeysChunk00 := by
  rfl

set_option maxHeartbeats 2000000 in
lemma c2mapChunk01 : c2PathsChunk01.map (fun p => enc8 (pathKey p)) = c2KeysChunk01 := by
  rfl

set_option maxHeartbeats 2000000 in
lemma c2mapChunk02 : c2PathsChunk02.map (fun p => enc8 (pathKey p)) = c2KeysChunk02 := by
  rfl

set_option maxHeartbeats 2000000 in
lemma c2mapChunk03 : c2PathsChunk03.map (fun p => enc8 (pathKey p)) = c2KeysChunk03 := by
  rfl

set_option maxHeartbeats 2000000 in
lemma c2mapChunk04 : c2PathsChunk04.map (fun p => enc8 (pathKey p)) = c2KeysChunk04 := by
  rfl

set_option maxHeartbeats 2000000 in
lemma c2mapChunk05 : c2PathsChunk05.map (fun p => enc8 (pathKey p)) = c2KeysChunk05 := by
  rfl

set_option maxHeartbeats 2000000 in
lemma c2mapChunk06 : c2PathsChunk06.map (fun p => enc8 (pathKey p)) = c2KeysChunk06 := by
  rfl

set_option maxHeartbeats 2000000 in
lemma c2mapChunk07 : c2PathsChunk07.map (fun p => enc8 (pathKey p)) = c2KeysChunk07 := by
  rfl

set_option maxHeartbeats 2000000 in
lemma c2mapChunk08 : c2PathsChunk08.map (fun p => enc8 (pathKey p)) = c2KeysChunk08 := by
  rfl

set_option maxHeartbeats 2000000 in
lemma c2mapChunk09 : c2PathsChunk09.map (fun p => enc8 (pathKey p)) = c2KeysChunk09 := by
  rfl

set_option maxHeartbeats 2000000 in
lemma c2mapChunk10 : c2PathsChunk10.map (fun p => enc8 (pathKey p)) = c2KeysChunk10 := by
  rfl

set_option maxHeartbeats 2000000 in
lemma c2mapChunk11 : c2PathsChunk11.map (fun p => enc8 (pathKey p)) = c2KeysChunk11 := by
  rfl

set_option maxHeartbeats 2000000 in
lemma c2mapChunk12 : c2PathsChunk12.map (fun p => enc8 (pathKey p)) = c2KeysChunk12 := by
  rfl

set_option maxHeartbeats 2000000 in
lemma c2mapChunk13 : c2PathsChunk13.map (fun p => enc8 (pathKey p)) = c2KeysChunk13 := by
  rfl

set_option maxHeartbeats 2000000 in
lemma c2mapChunk14 : c2PathsChunk14.map (fun p => enc8 (pathKey p)) = c2KeysChunk14 := by
  rfl

set_option maxHeartbeats 2000000 in
lemma c2mapChunk15 : c2PathsChunk15.map (fun p => enc8 (pathKey p)) = c2KeysChunk15 := by
  rfl

set_option maxHeartbeats 2000000 in
lemma c2mapChunk16 : c2PathsChunk16.map (fun p => enc8 (pathKey p)) = c2KeysChunk16 := by
  rfl

set_option maxHeartbeats 2000000 in
lemma c2mapChunk17 : c2PathsChunk17.map (fun p => enc8 (pathKey p)) = c2KeysChunk17 := by
  rfl

set_option maxHeartbeats 2000000 in
lemma c2mapChunk18 : c2PathsChunk18.map (fun p => enc8 (pathKey p)) = c2KeysChunk18 := by
  rfl

set_option maxHeartbeats 2000000 in
lemma c2mapChunk19 : c2PathsChunk19.map (fun p => enc8 (pathKey p)) = c2KeysChunk19 := by
  rfl

set_option maxHeartbeats 2000000 in
lemma c2mapChunk20 : c2PathsChunk20.map (fun p => enc8 (pathKey p)) = c2KeysChunk20 := by
  rfl

set_option maxHeartbeats 2000000 in
lemma c2mapChunk21 : c2PathsChunk21.map (fun p => enc8 (pathKey p)) = c2KeysChunk21 := by
  rfl

set_option maxHeartbeats 2000000 in
lemma c2mapChunk22 : c2PathsChunk22.map (fun p => enc8 (pathKey p)) = c2KeysChunk22 := by
  rfl

set_option maxHeartbeats 2000000 in
lemma c2mapChunk23 : c2PathsChunk23.map (fun p => enc8 (pathKey p)) = c2KeysChunk23 := by
  rfl

set_option maxHeartbeats 2000000 in
lemma c2mapChunk24 : c2PathsChunk24.map (fun p => enc8 (pathKey p)) = c2KeysChunk24 := by
  rfl

set_option maxHeartbeats 2000000 in
lemma c2mapChunk25 : c2PathsChunk25.map (fun p => enc8 (pathKey p)) = c2KeysChunk25 := by
  rfl

set_option maxHeartbeats 2000000 in
lemma c2mapChunk26 : c2PathsChunk26.map (fun p => enc8 (pathKey p)) = c2KeysChunk26 := by
  rfl

set_option maxHeartbeats 2000000 in
lemma c2mapChunk27 : c2PathsChunk27.map (fun p => enc8 (pathKey p)) = c2KeysChunk27 := by
  rfl

set_option maxHeartbeats 2000000 in
lemma c2mapChunk28 : c2PathsChunk28.map (fun p => enc8 (pathKey p)) = c2KeysChunk28 := by
  rfl

set_option maxHeartbeats 2000000 in
lemma c2mapChunk29 : c2PathsChunk29.map (fun p => enc8 (pathKey p)) = c2KeysChunk29 := by
  rfl

set_option maxHeartbeats 2000000 in
lemma c2mapChunk30 : c2PathsChunk30.map (fun p => enc8 (pathKey p)) = c2KeysChunk30 := by
  rfl

set_option maxHeartbeats 2000000 in
lemma c2mapChunk31 : c2PathsChunk31.map (fun p => enc8 (pathKey p)) = c2KeysChunk31 := by
  rfl

lemma map_append_congr {α β : Type} (f : α → β) {a b : List α} {c d : List β}
    (h1 : a.map f = c) (h2 : b.map f = d) : (a ++ b).map f = c ++ d := by
  rw [List.map_append, h1, h2]

lemma c2mapRest : c2ps.map (fun p => enc8 (pathKey p)) = c2KeysRest := by
  unfold c2ps c2KeysRest
  exact
    map_append_congr _ (map_append_congr _ (map_append_congr _ (map_append_congr _ (map_append_congr _ (map_append_congr _ (map_append_congr _ (map_append_congr _ (map_append_congr _ (map_append_congr _ (map_append_congr _ (map_append_congr _ (map_append_congr _ (map_append_congr _ (map_append_congr _ (map_append_congr _ (map_append_congr _ (map_append_congr _ (map_append_congr _ (map_append_congr _ (map_append_congr _ (map_append_congr _ (map_append_congr _ (map_append_congr _ (map_append_congr _ (map_append_congr _ (map_append_congr _ (map_append_congr _ (map_append_congr _ (map_append_congr _ (map_append_congr _ c2mapChunk00 c2mapChunk01) c2mapChunk02) c2mapChunk03) c2mapChunk04) c2mapChunk05) c2mapChunk06) c2mapChunk07) c2mapChunk08) c2mapChunk09) c2mapChunk10) c2mapChunk11) c2mapChunk12) c2mapChunk13) c2mapChunk14) c2mapChunk15) c2mapChunk16) c2mapChunk17) c2mapChunk18) c2mapChunk19) c2mapChunk20) c2mapChunk21) c2mapChunk22) c2mapChunk23) c2mapChunk24) c2mapChunk25) c2mapChunk26) c2mapChunk27) c2mapChunk28) c2mapChunk29) c2mapChunk30) c2mapChunk31

set_option maxHeartbeats 2000000 in
lemma c2map : (c2p0 :: c2ps).map (fun p => enc8 (pathKey p)) = c2AllKeys8 := by
  show enc8 (pathKey c2p0) :: c2ps.map (fun p => enc8 (pathKey p)) = c2AllKeys8
  unfold c2AllKeys8
  rw [show enc8 (pathKey c2p0) = c2Key0 from rfl, c2mapRest]

lemma strictIncr_lt : ∀ (l : List Nat) (x : Nat),
    strictIncr (x :: l) = true → ∀ y ∈ l, x < y := by
  intro l
  induction l with
  | nil =>
    intro x h y hy
    simp at hy
  | cons b rest ih =>
    intro x h y hy
    unfold strictIncr at h
    rw [Bool.and_eq_true] at h
    have hxb : x < b := of_decide_eq_true h.1
    rcases List.mem_cons.mp hy with rfl | hmem
    · exact hxb
    · exact Nat.lt_trans hxb (ih b h.2 y hmem)

lemma strictIncr_nodup : ∀ l : List Nat, strictIncr l = true → l.Nodup := by
  intro l
  induction l with
  | nil =>
    intro h
    exact List.nodup_nil
  | cons a rest ih =>
    intro h
    rw [List.nodup_cons]
    have hlt := strictIncr_lt rest a h
    refine ⟨fun hmem => Nat.lt_irrefl a (hlt a hmem), ih ?_⟩
    cases rest with
    | nil => rfl
    | cons b r =>
      unfold strictIncr at h
      rw [Bool.and_eq_true] at h
      exact h.2

set_option maxHeartbeats 2000000 in
lemma c2keys_nodup : c2AllKeys8.Nodup := by
  unfold c2AllKeys8
  rw [List.nodup_cons]
  exact ⟨by decide, strictIncr_nodup c2KeysRest (by rfl)⟩

set_option maxHeartbeats 2000000 in
lemma c2nodup : ((c2p0 :: c2ps).map pathKey).Nodup := by
  apply List.Nodup.of_map enc8
  rw [List.map_map]
  have h := c2map
  rw [show (fun p => enc8 (pathKey p)) = (enc8 ∘ pathKey) from rfl] at h
  rw [h]
  exact c2keys_nodup
/-- Witness for C2: the scenario — registering ["docs","report.txt"] and
then 1024 further distinct paths (capacity 1024) makes FromHandle on the
first handle fail with "handle unknown or expired", while the 1024 most
recently registered paths still resolve. -/
theorem nfsv3_c2_witness :
    ((registerAll newServer (c2p0 :: c2ps)).FromHandle (handleOf c2p0)).1
        = Except.error "handle unknown or expired" ∧
    ∀ p ∈ c2ps.drop (c2ps.length - 1024),
      ((registerAll newServer (c2p0 :: c2ps)).FromHandle (handleOf p)).1 = Except.ok p :=
  nfsv3_c2 c2p0 c2ps c2nodup (by decide)
